import Mathlib

/-!
# Pose-graph construction of `localization.cpp`

A shallow embedding of `Localization` (src/src/localization/localization.cpp):
the constructor, `addPoseEdge`, `addRangeEdge`, `addTwistEdge`, `twist2transform`,
`create_se3_edge_from_twist` and `create_range_edge`.

Conventions of the embedding.

* `double` values are exact rationals (`ℚ`); rounding is not modelled.
* A `g2o::VertexSE3*` is `Option Nat`: `none` is the null pointer and `some n` is the
  `n`-th vertex ever added to the optimizer.
* `Eigen::MatrixXd::inverse()` is not computed: an information matrix is recorded as
  `Inverse.of c`, the inverse of the covariance `c`.
* `std::vector::operator[]` on the antenna offset table is `offsets_at`, which is `none`
  outside the table. Such a read is undefined behaviour: the handler that performs it ends in
  `Outcome.undefined` with the state reached just before the read, and nothing is said about
  what follows.
* `std::map::at` is `robots_at`; a missing key makes the handler end in
  `Outcome.threw Exception.out_of_range` with the state reached so far.
* Publishers, the timer, the tf broadcaster and the log files are not part of the state.
  `ROS_INFO` lines of the measurement handlers are appended to `rosout`.
-/

namespace UwbLocalization

/-! ## Geometry -/

/-- A 3-vector of doubles (`tf::Vector3`, `geometry_msgs::Vector3`, `geometry_msgs::Point`). -/
structure Vector3 where
  x : ℚ
  y : ℚ
  z : ℚ
deriving DecidableEq

/-- An `Eigen::Isometry3d`: the three rows of the linear part and the translation column
`((0,3), (1,3), (2,3))`. -/
structure Isometry3d where
  row0 : Vector3
  row1 : Vector3
  row2 : Vector3
  translation : Vector3
deriving DecidableEq

/-- The value `Eigen::Isometry3d::Identity()`. -/
def Isometry3d.Identity : Isometry3d :=
  { row0 := ⟨1, 0, 0⟩, row1 := ⟨0, 1, 0⟩, row2 := ⟨0, 0, 1⟩, translation := ⟨0, 0, 0⟩ }

/-- The three assignments `pose(0,3) = a; pose(1,3) = b; pose(2,3) = c`. -/
def Isometry3d.setTranslation (p : Isometry3d) (a b c : ℚ) : Isometry3d :=
  { p with translation := ⟨a, b, c⟩ }

/-- A quaternion `(x, y, z, w)` (`tf::Quaternion`, `geometry_msgs::Quaternion`). -/
structure Quaternion where
  x : ℚ
  y : ℚ
  z : ℚ
  w : ℚ
deriving DecidableEq

/-- A 6x6 matrix of doubles. -/
abbrev Matrix6 := Fin 6 → Fin 6 → ℚ

/-- The view `Eigen::Map<Eigen::MatrixXd>(data, 6, 6)` of a 36-element array: Eigen maps are
column-major, so entry `(i, j)` is `data[i + 6 * j]`. -/
def mapMatrix6 (data : Fin 36 → ℚ) : Matrix6 :=
  fun i j => data ⟨i.val + 6 * j.val, by omega⟩

/-- The result of `Eigen` matrix inversion, recorded by the matrix that is inverted. -/
structure Inverse (α : Type) where
  of : α

/-! ## Messages -/

/-- A `std_msgs::Header`; `stamp` is `stamp.toSec()`. -/
structure Header where
  seq : Nat
  stamp : ℚ
  frame_id : String
deriving DecidableEq

/-- The fields of `uwb_driver::UwbRange` that `addRangeEdge` reads. -/
structure UwbRange where
  header : Header
  requester_id : Nat
  responder_id : Nat
  antenna : Nat
  distance : ℚ
  distance_err : ℚ

/-- A `geometry_msgs::Pose`. -/
structure Pose where
  position : Vector3
  orientation : Quaternion

/-- A `geometry_msgs::PoseWithCovarianceStamped`. -/
structure PoseWithCovarianceStamped where
  header : Header
  pose : Pose
  covariance : Fin 36 → ℚ

/-- A `geometry_msgs::TwistWithCovariance`. -/
structure TwistWithCovariance where
  linear : Vector3
  angular : Vector3
  covariance : Fin 36 → ℚ

/-- A `geometry_msgs::TwistWithCovarianceStamped`. -/
structure TwistWithCovarianceStamped where
  header : Header
  twist : TwistWithCovariance

/-! ## The optimizer graph -/

/-- A vertex held by the optimizer: a fixed pose (static agents) or an estimated pose whose
value belongs to the solver. -/
inductive VertexSE3 where
  | fixedAt (pose : Isometry3d)
  | estimated
deriving DecidableEq

/-- The robust kernels the handlers attach to edges. -/
inductive RobustKernel where
  | Huber
  | PseudoHuber
deriving DecidableEq

/-- A `g2o::EdgeSE3` as the handlers fill it in. -/
structure EdgeSE3 where
  vertex0 : Option Nat
  vertex1 : Option Nat
  measurement : Isometry3d
  information : Inverse Matrix6
  robustKernel : RobustKernel

/-- A `g2o::EdgeSE3Range` as the handlers fill it in; `vertexOffset0` is the offset of
vertex 0, the one `setVertexOffset(0, ...)` writes. -/
structure EdgeSE3Range where
  vertex0 : Option Nat
  vertex1 : Option Nat
  measurement : ℚ
  information : Inverse ℚ
  robustKernel : RobustKernel
  vertexOffset0 : Isometry3d

/-- Modelled from the spec: the class `g2o::EdgeSE3Range` is declared outside src/, so the
vertex offset of a new edge, on which `setVertexOffset` was never called, is not in the
source. The spec gives antenna index 0 as "none, i.e. body-frame origin": the offset of a
new edge is the identity transform. -/
def EdgeSE3Range.unsetVertexOffset : Isometry3d := Isometry3d.Identity

/-- An edge of the graph. -/
inductive Edge where
  | se3 (e : EdgeSE3)
  | range (e : EdgeSE3Range)

/-- The part of `g2o::SparseOptimizer` the handlers change: the vertices and the edges, in
the order they were added. -/
structure SparseOptimizer where
  vertices : List VertexSE3
  edges : List Edge

/-- The call `optimizer.addVertex(v)`; the handle of the new vertex is its position. -/
def SparseOptimizer.addVertex (o : SparseOptimizer) (v : VertexSE3) : SparseOptimizer :=
  { o with vertices := o.vertices ++ [v] }

/-- The call `optimizer.addEdge(e)`. -/
def SparseOptimizer.addEdge (o : SparseOptimizer) (e : Edge) : SparseOptimizer :=
  { o with edges := o.edges ++ [e] }

/-! ## Agents -/

/-- The measurement channels `sensor_type.pose`, `sensor_type.range`, `sensor_type.twist`. -/
inductive SensorType where
  | pose
  | range
  | twist
deriving DecidableEq

/-- Modelled from the spec: the class `Robot` is declared and defined outside src/. An agent
is its identifier, the static flag, the window capacity, the window of vertex handles (oldest
first), the header of the most recently attached vertex, and per channel the last vertex and
its header. -/
structure Robot where
  ID : Nat
  FLAG_STATIC : Bool
  trajectory_length : Nat
  vertices : List Nat
  header : Header
  channel_vertex : SensorType → Option Nat
  channel_header : SensorType → Header

/-- Modelled from the spec: the `Robot` constructor without optimizer is not under src/. A new
agent has an empty window and no frame identity yet (frame identifier "none"). -/
def Robot.create (id : Nat) (FLAG_STATIC : Bool) (trajectory_length : Nat) : Robot :=
  { ID := id, FLAG_STATIC := FLAG_STATIC, trajectory_length := trajectory_length,
    vertices := [], header := ⟨0, 0, "none"⟩,
    channel_vertex := fun _ => none, channel_header := fun _ => ⟨0, 0, "none"⟩ }

/-- Modelled from the spec: `Robot::init` is not under src/. The agent gets its one initial
vertex, which a static agent holds at the given pose for ever. -/
def Robot.init (r : Robot) (optimizer : SparseOptimizer) (pose : Isometry3d) :
    Robot × SparseOptimizer :=
  let v := optimizer.vertices.length
  ({ r with vertices := [v], channel_vertex := fun _ => some v },
   optimizer.addVertex (if r.FLAG_STATIC then VertexSE3.fixedAt pose else VertexSE3.estimated))

/-- Modelled from the spec: the `Robot` constructor taking the optimizer is not under src/. It
is the plain constructor followed by `init` at the identity pose, so that the first edge of the
self agent has a previous last vertex to start from. -/
def Robot.createWith (id : Nat) (FLAG_STATIC : Bool) (trajectory_length : Nat)
    (optimizer : SparseOptimizer) : Robot × SparseOptimizer :=
  (Robot.create id FLAG_STATIC trajectory_length).init optimizer Isometry3d.Identity

/-- Modelled from the spec: `Robot::is_static` is not under src/. -/
def Robot.is_static (r : Robot) : Bool := r.FLAG_STATIC

/-- Modelled from the spec: `Robot::last_vertex()` is not under src/. It is the most recent
entry of the window, null when the window is empty. -/
def Robot.last_vertex (r : Robot) : Option Nat := r.vertices.getLast?

/-- Modelled from the spec: `Robot::last_vertex(type)` is not under src/. It is the last
vertex attached on the channel. -/
def Robot.last_vertex_on (r : Robot) (type : SensorType) : Option Nat := r.channel_vertex type

/-- Modelled from the spec: `Robot::last_header()` is not under src/. -/
def Robot.last_header (r : Robot) : Header := r.header

/-- Modelled from the spec: `Robot::last_header(type)` is not under src/. -/
def Robot.last_header_on (r : Robot) (type : SensorType) : Header := r.channel_header type

/-- Modelled from the spec: `Robot::new_vertex` is not under src/. A static agent keeps its
single vertex and hands it back. A mobile agent gets a fresh vertex in the optimizer, appended
to the window (the oldest entry is dropped when the window is over capacity), and the header
is recorded for the channel and as the last header. -/
def Robot.new_vertex (r : Robot) (type : SensorType) (header : Header)
    (optimizer : SparseOptimizer) : Option Nat × Robot × SparseOptimizer :=
  if r.FLAG_STATIC then (r.last_vertex, r, optimizer)
  else
    let v := optimizer.vertices.length
    let window := r.vertices ++ [v]
    (some v,
     { r with
         vertices := window.drop (window.length - r.trajectory_length)
         header := header
         channel_vertex := fun c => if c = type then some v else r.channel_vertex c
         channel_header := fun c => if c = type then header else r.channel_header c },
     optimizer.addVertex VertexSE3.estimated)

/-! ## The agent registry -/

/-- The lookup `robots.at(id)`; `none` stands for the `std::out_of_range` it throws. -/
def robots_at : List (Nat × Robot) → Nat → Option Robot
  | [], _ => none
  | (k, r) :: m, id => if k = id then some r else robots_at m id

/-- The effect on the registry of a mutating call `robots.at(id).f(...)`: the agent stored
under `id` is replaced by its new value. -/
def robots_assign : List (Nat × Robot) → Nat → Robot → List (Nat × Robot)
  | [], _, _ => []
  | (k, r) :: m, id, r' => if k = id then (k, r') :: m else (k, r) :: robots_assign m id r'

/-- The call `robots.emplace(id, r)`: nothing happens when the key is present. -/
def robots_emplace (m : List (Nat × Robot)) (id : Nat) (r : Robot) : List (Nat × Robot) :=
  match robots_at m id with
  | some _ => m
  | none => m ++ [(id, r)]

/-! ## The localization object -/

/-- The `ROS_INFO` lines of the measurement handlers. In `added_two_requester_range_edge`
the index is `uwb->antenna-1` and the three values are `offsets[uwb->antenna-1](i,3)`. -/
inductive LogRecord where
  | graph_optimized
  | added_pose_edge (seq : Nat) (frame_id : String)
  | added_two_requester_range_edge (responder_id : Nat) (index : Int) (x y z : ℚ)
  | added_requester_edge (responder_id : Nat)
  | added_responder_trajectory_edge
  | added_twist_edge (seq : Nat)
deriving DecidableEq

/-- The members of `Localization` that the constructor and the handlers read or write. -/
structure Localization where
  optimizer : SparseOptimizer
  robots : List (Nat × Robot)
  self_id : Nat
  key_vertex : Option Nat
  offsets : List Isometry3d
  iteration_max : Int
  trajectory_length : Nat
  robot_max_velocity : ℚ
  publish_range : Bool
  publish_pose : Bool
  publish_twist : Bool
  publish_imu : Bool
  rosout : List LogRecord

/-- The exception a handler can leave with. -/
inductive Exception where
  | out_of_range
deriving DecidableEq

/-- How a handler ends: it returns; or an exception leaves it; or it performs a read outside
the antenna offset table, which is undefined behaviour, so that nothing is known of what
follows. Each case carries the state reached: on return, at the throw, just before the read. -/
inductive Outcome where
  | returned (L : Localization)
  | threw (e : Exception) (L : Localization)
  | undefined (L : Localization)

/-- The state reached when the handler ends. -/
def Outcome.state : Outcome → Localization
  | .returned L => L
  | .threw _ L => L
  | .undefined L => L

/-- The read `offsets[i]` for an `int` index. Inside the table it is the entry; outside the
table `std::vector::operator[]` is undefined behaviour, which is `none`. -/
def offsets_at (offsets : List Isometry3d) (i : Int) : Option Isometry3d :=
  if 0 ≤ i then offsets.get? i.toNat else none

/-- `Localization::solve`: the solver runs on the graph; vertices and edges stay as they are,
and the residual is logged. -/
def Localization.solve (L : Localization) : Localization :=
  { L with rosout := L.rosout ++ [LogRecord.graph_optimized] }

/-- `Localization::publish`: the self agent is looked up with `robots.at(self_id)`; the rest
goes to the publishers and the log files, outside the state. -/
def Localization.publish (L : Localization) : Outcome :=
  match robots_at L.robots L.self_id with
  | none => Outcome.threw Exception.out_of_range L
  | some _ => Outcome.returned L

/-- The tail `if (flag) { solve(); publish(); }` of every handler. -/
def Localization.solve_and_publish (L : Localization) (flag : Bool) : Outcome :=
  if flag then L.solve.publish else Outcome.returned L

/-- `Localization::create_range_edge`. The function sets the two vertices, the measurement,
the information and the kernel of a new edge; it does not call `setVertexOffset`, so the edge
keeps the vertex offset of a new edge. -/
def create_range_edge (vertex1 vertex2 : Option Nat) (distance covariance : ℚ) :
    EdgeSE3Range :=
  { vertex0 := vertex1, vertex1 := vertex2, measurement := distance,
    information := ⟨covariance⟩, robustKernel := RobustKernel.PseudoHuber,
    vertexOffset0 := EdgeSE3Range.unsetVertexOffset }

/-- The call `edge->setVertexOffset(0, offset)`. -/
def EdgeSE3Range.setVertexOffset0 (e : EdgeSE3Range) (offset : Isometry3d) :
    EdgeSE3Range :=
  { e with vertexOffset0 := offset }

/-- Lines 271-286 of `Localization::addRangeEdge`: the responder continuity edge when the
responder is not static, then `solve()` and `publish()` when `publish_range` is set. -/
def Localization.addRangeEdge_tail (L2 : Localization) (uwb : UwbRange)
    (vertex_last_responder vertex_responder : Option Nat) (dt_responder : ℚ) : Outcome :=
  match robots_at L2.robots uwb.responder_id with
  | none => Outcome.threw Exception.out_of_range L2
  | some responder2 =>
    let L3 : Localization :=
      if !responder2.is_static then
        let cov_responder := (L2.robot_max_velocity * dt_responder / 3) ^ 2
        let edge_responder_range :=
          create_range_edge vertex_last_responder vertex_responder 0 cov_responder
        { L2 with
            optimizer := L2.optimizer.addEdge (Edge.range edge_responder_range)
            rosout := L2.rosout ++ [LogRecord.added_responder_trajectory_edge] }
      else L2
    L3.solve_and_publish L3.publish_range

/-- `Localization::addRangeEdge`. In the same-frame branch the table `offsets` is read twice
with the index `uwb->antenna-1`: at line 251, under the guard `uwb->antenna > 0`, and in the
`ROS_INFO` statement of lines 259-260, whose arguments have no guard (they are evaluated when
the INFO level is enabled, which it is by default). A read outside the table ends the
handler in `Outcome.undefined`. -/
def Localization.addRangeEdge (L : Localization) (uwb : UwbRange) : Outcome :=
  match robots_at L.robots uwb.requester_id with
  | none => Outcome.threw Exception.out_of_range L
  | some requester0 =>
  match robots_at L.robots uwb.responder_id with
  | none => Outcome.threw Exception.out_of_range L
  | some responder0 =>
    let dt_requester := uwb.header.stamp - requester0.last_header.stamp
    let dt_responder := uwb.header.stamp - responder0.last_header.stamp
    let distance_cov := uwb.distance_err ^ 2
    let cov_requester := (L.robot_max_velocity * dt_requester / 3) ^ 2
    let vertex_last_requester := requester0.last_vertex
    let vertex_last_responder := responder0.last_vertex
    let nv := responder0.new_vertex SensorType.range uwb.header L.optimizer
    let vertex_responder := nv.1
    let L1 : Localization :=
      { L with robots := robots_assign L.robots uwb.responder_id nv.2.1, optimizer := nv.2.2 }
    match robots_at L1.robots uwb.requester_id with
    | none => Outcome.threw Exception.out_of_range L1
    | some requester1 =>
      let frame_id := requester1.last_header.frame_id
      if frame_id = uwb.header.frame_id ∨ frame_id = "none" then
        let nq := requester1.new_vertex SensorType.range uwb.header L1.optimizer
        let vertex_requester := nq.1
        let L1a : Localization :=
          { L1 with
              robots := robots_assign L1.robots uwb.requester_id nq.2.1
              optimizer := nq.2.2 }
        let edge := create_range_edge vertex_requester vertex_responder uwb.distance
          distance_cov
        let index : Int := (uwb.antenna : Int) - 1
        match (if uwb.antenna > 0 then (offsets_at L1a.offsets index).map edge.setVertexOffset0
            else some edge) with
        | none => Outcome.undefined L1a
        | some edge =>
          let edge_requester_range :=
            create_range_edge vertex_last_requester vertex_requester 0 cov_requester
          let L1b : Localization :=
            { L1a with
                optimizer := (L1a.optimizer.addEdge (Edge.range edge)).addEdge
                  (Edge.range edge_requester_range) }
          match offsets_at L1b.offsets index with
          | none => Outcome.undefined L1b
          | some offset =>
            let L2 : Localization :=
              { L1b with
                  rosout := L1b.rosout ++ [LogRecord.added_two_requester_range_edge
                    uwb.responder_id index offset.translation.x offset.translation.y
                    offset.translation.z] }
            L2.addRangeEdge_tail uwb vertex_last_responder vertex_responder dt_responder
      else
        let edge := create_range_edge vertex_last_requester vertex_responder uwb.distance
          (distance_cov + cov_requester)
        let L2 : Localization :=
          { L1 with
              optimizer := L1.optimizer.addEdge (Edge.range edge)
              rosout := L1.rosout ++ [LogRecord.added_requester_edge uwb.responder_id] }
        L2.addRangeEdge_tail uwb vertex_last_responder vertex_responder dt_responder

/-! ## Pose and twist measurements -/

/-- The conversion `tf::poseMsgToEigen`: translation by the position composed with
`Eigen::Quaterniond(w, x, y, z)`, whose rotation matrix Eigen computes by the formula of
`toRotationMatrix` (no normalisation). -/
def poseMsgToEigen (m : Pose) : Isometry3d :=
  let q := m.orientation
  let tx := 2 * q.x
  let ty := 2 * q.y
  let tz := 2 * q.z
  let twx := tx * q.w
  let twy := ty * q.w
  let twz := tz * q.w
  let txx := tx * q.x
  let txy := ty * q.x
  let txz := tz * q.x
  let tyy := ty * q.y
  let tyz := tz * q.y
  let tzz := tz * q.z
  { row0 := ⟨1 - (tyy + tzz), txy - twz, txz + twy⟩
    row1 := ⟨txy + twz, 1 - (txx + tzz), tyz - twx⟩
    row2 := ⟨txz - twy, tyz + twx, 1 - (txx + tyy)⟩
    translation := m.position }

/-- `Localization::addPoseEdge`. -/
def Localization.addPoseEdge (L : Localization) (pose_cov : PoseWithCovarianceStamped) :
    Outcome :=
  match robots_at L.robots L.self_id with
  | none => Outcome.threw Exception.out_of_range L
  | some self0 =>
    let key_vertex :=
      if pose_cov.header.frame_id ≠ (self0.last_header_on SensorType.pose).frame_id then
        self0.last_vertex_on SensorType.pose
      else L.key_vertex
    let nv := self0.new_vertex SensorType.pose pose_cov.header L.optimizer
    let new_vertex := nv.1
    let edge : EdgeSE3 :=
      { vertex0 := key_vertex
        vertex1 := new_vertex
        measurement := poseMsgToEigen pose_cov.pose
        information := ⟨mapMatrix6 pose_cov.covariance⟩
        robustKernel := RobustKernel.Huber }
    let L1 : Localization :=
      { L with
          key_vertex := key_vertex
          robots := robots_assign L.robots L.self_id nv.2.1
          optimizer := nv.2.2.addEdge (Edge.se3 edge)
          rosout := L.rosout ++
            [LogRecord.added_pose_edge pose_cov.header.seq pose_cov.header.frame_id] }
    L1.solve_and_publish L1.publish_pose

/-- The scalar functions `tfSin` and `tfCos` of the tf library (the sine and cosine of the C
library); they are not rational functions, so they are parameters of the model. -/
structure TfMath where
  tfSin : ℚ → ℚ
  tfCos : ℚ → ℚ

/-- The method `tf::Quaternion::setRPY`. -/
def setRPY (m : TfMath) (roll pitch yaw : ℚ) : Quaternion :=
  let halfYaw := yaw * (1 / 2)
  let halfPitch := pitch * (1 / 2)
  let halfRoll := roll * (1 / 2)
  let cosYaw := m.tfCos halfYaw
  let sinYaw := m.tfSin halfYaw
  let cosPitch := m.tfCos halfPitch
  let sinPitch := m.tfSin halfPitch
  let cosRoll := m.tfCos halfRoll
  let sinRoll := m.tfSin halfRoll
  { x := sinRoll * cosPitch * cosYaw - cosRoll * sinPitch * sinYaw
    y := cosRoll * sinPitch * cosYaw + sinRoll * cosPitch * sinYaw
    z := cosRoll * cosPitch * sinYaw - sinRoll * sinPitch * cosYaw
    w := cosRoll * cosPitch * cosYaw + sinRoll * sinPitch * sinYaw }

/-- The product `translation * dt` of a `tf::Vector3` and a scalar. -/
def Vector3.scale (v : Vector3) (s : ℚ) : Vector3 := ⟨v.x * s, v.y * s, v.z * s⟩

/-- The constructor `tf::Transform(quaternion, origin)` followed by `tf::transformTFToEigen`:
the basis is `tf::Matrix3x3::setRotation(quaternion)`, copied entry by entry into the linear
part, and the origin becomes the translation. -/
def transformTFToEigen (q : Quaternion) (origin : Vector3) : Isometry3d :=
  let d := q.x * q.x + q.y * q.y + q.z * q.z + q.w * q.w
  let s := 2 / d
  let xs := q.x * s
  let ys := q.y * s
  let zs := q.z * s
  let wx := q.w * xs
  let wy := q.w * ys
  let wz := q.w * zs
  let xx := q.x * xs
  let xy := q.x * ys
  let xz := q.x * zs
  let yy := q.y * ys
  let yz := q.y * zs
  let zz := q.z * zs
  { row0 := ⟨1 - (yy + zz), xy - wz, xz + wy⟩
    row1 := ⟨xy + wz, 1 - (xx + zz), yz - wx⟩
    row2 := ⟨xz - wy, yz + wx, 1 - (xx + yy)⟩
    translation := origin }

/-- `Localization::twist2transform`: the returned measurement and the value left in the
output parameter `covariance`. -/
def twist2transform (m : TfMath) (twist : TwistWithCovariance) (dt : ℚ) :
    Isometry3d × Matrix6 :=
  let translation := twist.linear
  let euler := twist.angular
  let quaternion := setRPY m (euler.x * dt) (euler.y * dt) (euler.z * dt)
  let measurement := transformTFToEigen quaternion (translation.scale dt)
  let cov := mapMatrix6 twist.covariance
  (measurement, fun i j => cov i j * dt * dt)

/-- `Localization::create_se3_edge_from_twist`. -/
def create_se3_edge_from_twist (m : TfMath) (vetex1 vetex2 : Option Nat)
    (twist : TwistWithCovariance) (dt : ℚ) : EdgeSE3 :=
  let mc := twist2transform m twist dt
  { vertex0 := vetex1
    vertex1 := vetex2
    measurement := mc.1
    information := ⟨mc.2⟩
    robustKernel := RobustKernel.Huber }

/-- `Localization::addTwistEdge`. -/
def Localization.addTwistEdge (L : Localization) (m : TfMath)
    (twist : TwistWithCovarianceStamped) : Outcome :=
  match robots_at L.robots L.self_id with
  | none => Outcome.threw Exception.out_of_range L
  | some self0 =>
    let dt := twist.header.stamp - self0.last_header.stamp
    let last_vertex := self0.last_vertex
    let nv := self0.new_vertex SensorType.twist twist.header L.optimizer
    let new_vertex := nv.1
    let edge := create_se3_edge_from_twist m last_vertex new_vertex twist.twist dt
    let L1 : Localization :=
      { L with
          robots := robots_assign L.robots L.self_id nv.2.1
          optimizer := nv.2.2.addEdge (Edge.se3 edge)
          rosout := L.rosout ++ [LogRecord.added_twist_edge twist.header.seq] }
    L1.solve_and_publish L1.publish_twist

/-- `Localization::addImuEdge`. -/
def Localization.addImuEdge (L : Localization) : Outcome :=
  L.solve_and_publish L.publish_imu

/-! ## The constructor -/

/-- The ROS parameters the constructor reads. An absent parameter is `none` where the
constructor has a default or goes on without it. -/
structure Params where
  maximum_iteration : Option Int
  trajectory_length : Nat
  maximum_velocity : Option ℚ
  nodesId : List Nat
  nodesPos : List ℚ
  antennaOffset : Option (List ℚ)
  publish_range : Option Bool
  publish_pose : Option Bool
  publish_twist : Option Bool
  publish_imu : Option Bool

/-- One turn of the loop over the static nodes, for index `i`. The reads `nodesId[i]`,
`nodesPos[i*3]`, `nodesPos[i*3+1]` and `nodesPos[i*3+2]` are undefined behaviour past the
end of the vector, which is `none`. -/
def register_node (nodesId : List Nat) (nodesPos : List ℚ)
    (st : List (Nat × Robot) × SparseOptimizer) (i : Nat) :
    Option (List (Nat × Robot) × SparseOptimizer) :=
  match nodesId.get? i, nodesPos.get? (i * 3), nodesPos.get? (i * 3 + 1),
      nodesPos.get? (i * 3 + 2) with
  | some id, some x, some y, some z =>
    let robots := robots_emplace st.1 id (Robot.create id true 1)
    let pose := Isometry3d.Identity.setTranslation x y z
    match robots_at robots id with
    | none => none
    | some r =>
      let ri := r.init st.2 pose
      some (robots_assign robots id ri.1, ri.2)
  | _, _, _, _ => none

/-- The loop over the static nodes, for the indices in the list, in order. -/
def register_nodes (nodesId : List Nat) (nodesPos : List ℚ) :
    List Nat → List (Nat × Robot) × SparseOptimizer →
    Option (List (Nat × Robot) × SparseOptimizer)
  | [], st => some st
  | i :: is, st =>
    match register_node nodesId nodesPos st i with
    | none => none
    | some st' => register_nodes nodesId nodesPos is st'

/-- The antenna offset table built from the parameter `/uwb/antennaOffset`; every read of
the parameter is inside it. -/
def antenna_offsets (antennaOffset : List ℚ) : List Isometry3d :=
  (List.range (antennaOffset.length / 3)).map fun i =>
    Isometry3d.Identity.setTranslation
      (antennaOffset.getD (i * 3) 0) (antennaOffset.getD (i * 3 + 1) 0)
      (antennaOffset.getD (i * 3 + 2) 0)

/-- The constructor `Localization::Localization`. The result is `none` when the constructor
has undefined behaviour: `nodesId.back()` on an empty vector, or a read past the end of
`nodesPos`. With `nodesId` not empty the loop bound `nodesId.size()-1` does not wrap. The
constructor never assigns the member `key_vertex`; the value the member happens to hold is
the argument `key_vertex`. -/
def Localization.create (p : Params) (key_vertex : Option Nat) : Option Localization :=
  match p.nodesId.getLast? with
  | none => none
  | some self_id =>
    let optimizer0 : SparseOptimizer := { vertices := [], edges := [] }
    let self0 := Robot.createWith self_id false p.trajectory_length optimizer0
    let robots0 := robots_emplace [] self_id self0.1
    match register_nodes p.nodesId p.nodesPos (List.range (p.nodesId.length - 1))
        (robots0, self0.2) with
    | none => none
    | some st =>
      some
        { optimizer := st.2
          robots := st.1
          self_id := self_id
          key_vertex := key_vertex
          offsets := match p.antennaOffset with
            | some a => antenna_offsets a
            | none => []
          iteration_max := p.maximum_iteration.getD 20
          trajectory_length := p.trajectory_length
          robot_max_velocity := p.maximum_velocity.getD 1
          publish_range := p.publish_range.getD false
          publish_pose := p.publish_pose.getD false
          publish_twist := p.publish_twist.getD false
          publish_imu := p.publish_imu.getD false
          rosout := [] }

/-! ## Concrete inputs -/

/-- The end-to-end configuration: static anchor 1 at the origin, self agent 9 with a window
of 10, no antenna offsets, every other parameter absent. -/
def scenario_params : Params :=
  { maximum_iteration := none, trajectory_length := 10, maximum_velocity := none,
    nodesId := [1, 9], nodesPos := [0, 0, 0], antennaOffset := none,
    publish_range := none, publish_pose := none, publish_twist := none, publish_imu := none }

/-- The self agent the constructor builds in the end-to-end configuration. -/
def scenario_self : Robot :=
  (Robot.createWith 9 false 10 { vertices := [], edges := [] }).1

/-- The anchor the constructor builds in the end-to-end configuration. -/
def scenario_anchor : Robot :=
  ((Robot.create 1 true 1).init { vertices := [VertexSE3.estimated], edges := [] }
    (Isometry3d.Identity.setTranslation 0 0 0)).1

/-- The state the constructor builds in the end-to-end configuration with the given antenna
offset table, the member `key_vertex` holding the null pointer. -/
def scenario_state (offsets : List Isometry3d) : Localization :=
  { optimizer :=
      { vertices := [VertexSE3.estimated,
          VertexSE3.fixedAt (Isometry3d.Identity.setTranslation 0 0 0)],
        edges := [] }
    robots := [(9, scenario_self), (1, scenario_anchor)]
    self_id := 9
    key_vertex := none
    offsets := offsets
    iteration_max := 20
    trajectory_length := 10
    robot_max_velocity := 1
    publish_range := false
    publish_pose := false
    publish_twist := false
    publish_imu := false
    rosout := [] }

/-- The state the constructor builds for `scenario_params`: no antenna offsets. -/
def scenario_start : Localization := scenario_state []

/-- The end-to-end range measurement: requester 9, responder 1, distance 5.0, standard
deviation 0.1 (variance 0.01), frame "none", no antenna, at time 1. -/
def scenario_uwb : UwbRange :=
  { header := ⟨0, 1, "none"⟩, requester_id := 9, responder_id := 1, antenna := 0,
    distance := 5, distance_err := 1 / 10 }

/-- A range measurement the other way round: the anchor 1 requests, the self agent 9
responds; no antenna, frame "none", at time 1. -/
def anchor_uwb : UwbRange :=
  { header := ⟨0, 1, "none"⟩, requester_id := 1, responder_id := 9, antenna := 0,
    distance := 5, distance_err := 1 / 10 }

/-- The parameter `/uwb/antennaOffset` for two antennas: the first at the body-frame origin,
the second at (0.1, 0, 0). -/
def two_antennas : List ℚ := [0, 0, 0, 1 / 10, 0, 0]

/-- The state after a sequence of pose measurements, handled one after the other by
`addPoseEdge`. -/
def pose_run (L : Localization) (ps : List PoseWithCovarianceStamped) : Localization :=
  ps.foldl (fun M p => (M.addPoseEdge p).state) L

/-- A pose measurement at the origin with unit covariance, in the given frame. -/
def pose_in (frame_id : String) (seq : Nat) (stamp : ℚ) : PoseWithCovarianceStamped :=
  { header := ⟨seq, stamp, frame_id⟩
    pose := ⟨⟨0, 0, 0⟩, ⟨0, 0, 0, 1⟩⟩
    covariance := fun i => if i.val % 7 = 0 then 1 else 0 }

/-- The end-to-end state after one pose measurement in frame "map" at time 5. -/
def scenario_posed : Localization := pose_run scenario_start [pose_in "map" 1 5]

/-- The self agent of `scenario_posed`: its last header is the one of the pose measurement. -/
def posed_self : Robot :=
  (scenario_self.new_vertex SensorType.pose (pose_in "map" 1 5).header
    scenario_start.optimizer).2.1

/-- A range measurement in frame "odom" at time 6 that names antenna 5. -/
def scenario_uwb_odom : UwbRange :=
  { header := ⟨1, 6, "odom"⟩, requester_id := 9, responder_id := 1, antenna := 5,
    distance := 4, distance_err := 1 / 10 }

/-- A rational stand-in for the sine and cosine of the C library: their Taylor polynomials
of degree 3 and 2, exact at 0. -/
def series_math : TfMath :=
  { tfSin := fun x => x - x ^ 3 / 6, tfCos := fun x => 1 - x ^ 2 / 2 }

/-- A twist with linear velocity (1,0,0), angular velocity 0 and the covariance array
1, 2, ..., 36. -/
def forward_twist : TwistWithCovariance :=
  { linear := ⟨1, 0, 0⟩, angular := ⟨0, 0, 0⟩
    covariance := fun i => (i.val : ℚ) + 1 }

/-- A twist measurement stamped at time 3. -/
def late_twist : TwistWithCovarianceStamped :=
  { header := ⟨2, 3, "base"⟩, twist := forward_twist }

/-! ## Registry lemmas -/

theorem robots_at_assign_self (m : List (Nat × Robot)) (k : Nat) (r r' : Robot)
    (h : robots_at m k = some r) : robots_at (robots_assign m k r') k = some r' := by
  induction m with
  | nil => simp [robots_at] at h
  | cons p m ih =>
    obtain ⟨j, q⟩ := p
    by_cases hj : j = k
    · simp [robots_at, robots_assign, hj]
    · simp only [robots_at, if_neg hj] at h
      simp [robots_at, robots_assign, hj, ih h]

theorem robots_at_assign_ne (m : List (Nat × Robot)) (k j : Nat) (r' : Robot)
    (h : j ≠ k) : robots_at (robots_assign m k r') j = robots_at m j := by
  induction m with
  | nil => simp [robots_at, robots_assign]
  | cons p m ih =>
    obtain ⟨i, q⟩ := p
    by_cases hi : i = k
    · have hij : ¬ i = j := fun e => h (e ▸ hi)
      simp only [robots_assign, if_pos hi, robots_at, if_neg hij]
    · by_cases hij : i = j
      · simp only [robots_assign, if_neg hi, robots_at, if_pos hij]
      · simp only [robots_assign, if_neg hi, robots_at, if_neg hij, ih]

theorem robots_at_assign_isSome (m : List (Nat × Robot)) (k j : Nat) (r' : Robot) :
    (robots_at (robots_assign m k r') j).isSome = (robots_at m j).isSome := by
  by_cases h : j = k
  · subst h
    cases hm : robots_at m j with
    | some r => rw [robots_at_assign_self m j r r' hm]; rfl
    | none =>
      have : robots_at (robots_assign m j r') j = none := by
        induction m with
        | nil => rfl
        | cons p m ih =>
          obtain ⟨i, q⟩ := p
          by_cases hi : i = j
          · simp [robots_at, hi] at hm
          · simp only [robots_at, if_neg hi] at hm
            simp only [robots_assign, if_neg hi, robots_at, ih hm]
      rw [this]
  · rw [robots_at_assign_ne m k j r' h]

theorem new_vertex_flag (r : Robot) (t : SensorType) (h : Header) (o : SparseOptimizer) :
    (r.new_vertex t h o).2.1.FLAG_STATIC = r.FLAG_STATIC := by
  unfold Robot.new_vertex
  split <;> rfl

theorem new_vertex_edges (r : Robot) (t : SensorType) (h : Header) (o : SparseOptimizer) :
    (r.new_vertex t h o).2.2.edges = o.edges := by
  unfold Robot.new_vertex
  split <;> rfl

theorem new_vertex_mobile (r : Robot) (t : SensorType) (h : Header) (o : SparseOptimizer)
    (hm : r.FLAG_STATIC = false) :
    (r.new_vertex t h o).1 = some o.vertices.length ∧
    (r.new_vertex t h o).2.2 = o.addVertex VertexSE3.estimated ∧
    ((r.new_vertex t h o).2.1.last_header_on t) = h ∧
    (r.new_vertex t h o).2.1.last_header = h ∧
    (r.new_vertex t h o).2.1.last_vertex_on t = some o.vertices.length := by
  unfold Robot.new_vertex
  simp [hm, Robot.last_header_on, Robot.last_vertex_on, Robot.last_header]

/-- The element right after a list in an append. -/
theorem get?_append_length {α : Type} (l : List α) (a : α) (t : List α) :
    (l ++ a :: t).get? l.length = some a := by
  induction l with
  | nil => rfl
  | cons b l ih => simpa using ih

/-- For an antenna index from 1 to the size of the table, the index `uwb->antenna-1` is
inside the table. -/
theorem offsets_at_in_table (offsets : List Isometry3d) (k : Nat) (h1 : 0 < k)
    (h2 : k ≤ offsets.length) : (offsets_at offsets ((k : Int) - 1)).isSome = true := by
  have hk : (k : Int) - 1 = ((k - 1 : Nat) : Int) := by omega
  have hlt : k - 1 < offsets.length := by omega
  rw [hk]
  simp [offsets_at, List.getElem?_eq_getElem hlt]

/-! ## The end of a handler -/

theorem solve_and_publish_optimizer (L : Localization) (b : Bool) :
    (L.solve_and_publish b).state.optimizer = L.optimizer := by
  unfold Localization.solve_and_publish Localization.publish Localization.solve
  cases b
  · rfl
  · simp only [if_true]
    split <;> rfl

theorem solve_and_publish_returns (L : Localization) (b : Bool)
    (h : (robots_at L.robots L.self_id).isSome = true) :
    L.solve_and_publish b = Outcome.returned (L.solve_and_publish b).state := by
  unfold Localization.solve_and_publish Localization.publish
  cases b
  · rfl
  · simp only [if_true]
    have h' : (robots_at L.solve.robots L.solve.self_id).isSome = true := h
    cases hs : robots_at L.solve.robots L.solve.self_id with
    | none => rw [hs] at h'; simp at h'
    | some r => rfl

theorem solve_and_publish_state (M : Localization) (b : Bool)
    (hM : (robots_at M.robots M.self_id).isSome = true) :
    M.solve_and_publish b = Outcome.returned (M.solve_and_publish b).state ∧
    (M.solve_and_publish b).state.self_id = M.self_id ∧
    (M.solve_and_publish b).state.key_vertex = M.key_vertex ∧
    (M.solve_and_publish b).state.robots = M.robots ∧
    (M.solve_and_publish b).state.optimizer = M.optimizer := by
  refine ⟨solve_and_publish_returns M b hM, ?_⟩
  rw [solve_and_publish_returns M b hM]
  unfold Localization.solve_and_publish Localization.publish Localization.solve
  cases b
  · exact ⟨rfl, rfl, rfl, rfl⟩
  · simp only [if_true]
    split <;> exact ⟨rfl, rfl, rfl, rfl⟩

/-- The constructor on the end-to-end configuration, for every antenna table and whatever
`key_vertex` holds. -/
theorem create_scenario (a : Option (List ℚ)) (k : Option Nat) :
    Localization.create { scenario_params with antennaOffset := a } k =
      some { scenario_state (match a with
        | some a => antenna_offsets a
        | none => []) with key_vertex := k } := rfl

/-! ## Range measurements: the three ways through `addRangeEdge` -/

/-- The end of `addRangeEdge`: what it adds to the graph. -/
theorem addRangeEdge_tail_optimizer (L2 : Localization) (uwb : UwbRange)
    (vl vr : Option Nat) (dt : ℚ) (r2 : Robot)
    (h2 : robots_at L2.robots uwb.responder_id = some r2) :
    (L2.addRangeEdge_tail uwb vl vr dt).state.optimizer.vertices = L2.optimizer.vertices ∧
    (L2.addRangeEdge_tail uwb vl vr dt).state.optimizer.edges =
      L2.optimizer.edges ++
        (if r2.is_static then []
         else [Edge.range (create_range_edge vl vr 0
          ((L2.robot_max_velocity * dt / 3) ^ 2))]) := by
  unfold Localization.addRangeEdge_tail
  simp only [h2]
  cases hs : r2.is_static <;>
    simp [solve_and_publish_optimizer, SparseOptimizer.addEdge]

/-- The end of `addRangeEdge` returns when the self agent is registered, and leaves the
registry as it is. -/
theorem addRangeEdge_tail_returns (L2 : Localization) (uwb : UwbRange)
    (vl vr : Option Nat) (dt : ℚ) (r2 : Robot)
    (h2 : robots_at L2.robots uwb.responder_id = some r2)
    (hs : (robots_at L2.robots L2.self_id).isSome = true) :
    L2.addRangeEdge_tail uwb vl vr dt =
      Outcome.returned (L2.addRangeEdge_tail uwb vl vr dt).state ∧
    (L2.addRangeEdge_tail uwb vl vr dt).state.robots = L2.robots := by
  unfold Localization.addRangeEdge_tail
  simp only [h2]
  cases hst : r2.is_static
  · simp only [Bool.not_false, if_true]
    have h := solve_and_publish_state
      { L2 with
          optimizer := L2.optimizer.addEdge (Edge.range (create_range_edge vl vr 0
            ((L2.robot_max_velocity * dt / 3) ^ 2)))
          rosout := L2.rosout ++ [LogRecord.added_responder_trajectory_edge] }
      L2.publish_range hs
    exact ⟨h.1, h.2.2.2.1⟩
  · simp only [Bool.not_true, Bool.false_eq_true, if_false]
    have h := solve_and_publish_state L2 L2.publish_range hs
    exact ⟨h.1, h.2.2.2.1⟩

/-- The differing-frame branch: the state `L2` with which the handler enters its end. -/
theorem addRangeEdge_other_frame (L : Localization) (uwb : UwbRange)
    (requester responder : Robot)
    (hreq : robots_at L.robots uwb.requester_id = some requester)
    (hresp : robots_at L.robots uwb.responder_id = some responder)
    (hne : uwb.requester_id ≠ uwb.responder_id)
    (hf : ¬ (requester.last_header.frame_id = uwb.header.frame_id ∨
      requester.last_header.frame_id = "none")) :
    ∃ L2 : Localization,
      L.addRangeEdge uwb = L2.addRangeEdge_tail uwb responder.last_vertex
        (responder.new_vertex SensorType.range uwb.header L.optimizer).1
        (uwb.header.stamp - responder.last_header.stamp) ∧
      L2.self_id = L.self_id ∧
      L2.robot_max_velocity = L.robot_max_velocity ∧
      L2.robots = robots_assign L.robots uwb.responder_id
        (responder.new_vertex SensorType.range uwb.header L.optimizer).2.1 ∧
      L2.optimizer =
        (responder.new_vertex SensorType.range uwb.header L.optimizer).2.2.addEdge
          (Edge.range (create_range_edge requester.last_vertex
            (responder.new_vertex SensorType.range uwb.header L.optimizer).1
            uwb.distance
            (uwb.distance_err ^ 2 + (L.robot_max_velocity *
              (uwb.header.stamp - requester.last_header.stamp) / 3) ^ 2))) := by
  have h1 : robots_at (robots_assign L.robots uwb.responder_id
      (responder.new_vertex SensorType.range uwb.header L.optimizer).2.1) uwb.requester_id
      = some requester := by
    rw [robots_at_assign_ne _ _ _ _ hne, hreq]
  unfold Localization.addRangeEdge
  simp only [hreq, hresp, h1, hf, if_false]
  exact ⟨_, rfl, rfl, rfl, rfl, rfl⟩

/-- The same-frame branch with an antenna index inside the table: the state `L2` with which
the handler enters its end. -/
theorem addRangeEdge_in_table (L : Localization) (uwb : UwbRange)
    (requester responder : Robot) (o : Isometry3d)
    (hreq : robots_at L.robots uwb.requester_id = some requester)
    (hresp : robots_at L.robots uwb.responder_id = some responder)
    (hne : uwb.requester_id ≠ uwb.responder_id)
    (hf : requester.last_header.frame_id = uwb.header.frame_id ∨
      requester.last_header.frame_id = "none")
    (hk : 0 < uwb.antenna)
    (hoff : offsets_at L.offsets ((uwb.antenna : Int) - 1) = some o) :
    ∃ L2 : Localization,
      L.addRangeEdge uwb = L2.addRangeEdge_tail uwb responder.last_vertex
        (responder.new_vertex SensorType.range uwb.header L.optimizer).1
        (uwb.header.stamp - responder.last_header.stamp) ∧
      L2.self_id = L.self_id ∧
      L2.robot_max_velocity = L.robot_max_velocity ∧
      L2.robots = robots_assign (robots_assign L.robots uwb.responder_id
          (responder.new_vertex SensorType.range uwb.header L.optimizer).2.1)
        uwb.requester_id
        (requester.new_vertex SensorType.range uwb.header
          (responder.new_vertex SensorType.range uwb.header L.optimizer).2.2).2.1 ∧
      L2.optimizer =
        ((requester.new_vertex SensorType.range uwb.header
          (responder.new_vertex SensorType.range uwb.header L.optimizer).2.2).2.2.addEdge
          (Edge.range ((create_range_edge
            (requester.new_vertex SensorType.range uwb.header
              (responder.new_vertex SensorType.range uwb.header L.optimizer).2.2).1
            (responder.new_vertex SensorType.range uwb.header L.optimizer).1
            uwb.distance (uwb.distance_err ^ 2)).setVertexOffset0 o))).addEdge
          (Edge.range (create_range_edge requester.last_vertex
            (requester.new_vertex SensorType.range uwb.header
              (responder.new_vertex SensorType.range uwb.header L.optimizer).2.2).1
            0 ((L.robot_max_velocity *
              (uwb.header.stamp - requester.last_header.stamp) / 3) ^ 2))) ∧
      L2.rosout = L.rosout ++ [LogRecord.added_two_requester_range_edge uwb.responder_id
        ((uwb.antenna : Int) - 1) o.translation.x o.translation.y o.translation.z] := by
  have h1 : robots_at (robots_assign L.robots uwb.responder_id
      (responder.new_vertex SensorType.range uwb.header L.optimizer).2.1) uwb.requester_id
      = some requester := by
    rw [robots_at_assign_ne _ _ _ _ hne, hreq]
  unfold Localization.addRangeEdge
  simp only [hreq, hresp, h1, hf, if_true, gt_iff_lt, hk, hoff, Option.map_some']
  exact ⟨_, rfl, rfl, rfl, rfl, rfl, rfl⟩

/-- The same-frame branch with antenna index 0: the handler adds the direct edge and the
requester continuity edge and then reads `offsets[-1]` in the log statement. -/
theorem addRangeEdge_antenna_zero (L : Localization) (uwb : UwbRange)
    (requester responder : Robot)
    (hreq : robots_at L.robots uwb.requester_id = some requester)
    (hresp : robots_at L.robots uwb.responder_id = some responder)
    (hne : uwb.requester_id ≠ uwb.responder_id)
    (hf : requester.last_header.frame_id = uwb.header.frame_id ∨
      requester.last_header.frame_id = "none")
    (hk : uwb.antenna = 0) :
    L.addRangeEdge uwb =
      Outcome.undefined
        { L with
          robots := robots_assign (robots_assign L.robots uwb.responder_id
              (responder.new_vertex SensorType.range uwb.header L.optimizer).2.1)
            uwb.requester_id
            (requester.new_vertex SensorType.range uwb.header
              (responder.new_vertex SensorType.range uwb.header L.optimizer).2.2).2.1
          optimizer :=
            ((requester.new_vertex SensorType.range uwb.header
              (responder.new_vertex SensorType.range uwb.header L.optimizer).2.2).2.2.addEdge
              (Edge.range (create_range_edge
                (requester.new_vertex SensorType.range uwb.header
                  (responder.new_vertex SensorType.range uwb.header L.optimizer).2.2).1
                (responder.new_vertex SensorType.range uwb.header L.optimizer).1
                uwb.distance (uwb.distance_err ^ 2)))).addEdge
              (Edge.range (create_range_edge requester.last_vertex
                (requester.new_vertex SensorType.range uwb.header
                  (responder.new_vertex SensorType.range uwb.header L.optimizer).2.2).1
                0 ((L.robot_max_velocity *
                  (uwb.header.stamp - requester.last_header.stamp) / 3) ^ 2))) } := by
  have h1 : robots_at (robots_assign L.robots uwb.responder_id
      (responder.new_vertex SensorType.range uwb.header L.optimizer).2.1) uwb.requester_id
      = some requester := by
    rw [robots_at_assign_ne _ _ _ _ hne, hreq]
  have hm1 : offsets_at L.offsets (-1) = none := by simp [offsets_at]
  unfold Localization.addRangeEdge
  simp only [hreq, hresp, h1, hf, if_true, hk, gt_iff_lt, lt_self_iff_false, if_false,
    Nat.cast_zero, zero_sub, hm1]

/-- The graph after the same-frame branch with an antenna index inside the table. -/
theorem addRangeEdge_in_table_graph (L : Localization) (uwb : UwbRange)
    (requester responder : Robot) (o : Isometry3d)
    (hreq : robots_at L.robots uwb.requester_id = some requester)
    (hresp : robots_at L.robots uwb.responder_id = some responder)
    (hne : uwb.requester_id ≠ uwb.responder_id)
    (hf : requester.last_header.frame_id = uwb.header.frame_id ∨
      requester.last_header.frame_id = "none")
    (hk : 0 < uwb.antenna)
    (hoff : offsets_at L.offsets ((uwb.antenna : Int) - 1) = some o) :
    (L.addRangeEdge uwb).state.optimizer.vertices =
      (requester.new_vertex SensorType.range uwb.header
        (responder.new_vertex SensorType.range uwb.header L.optimizer).2.2).2.2.vertices ∧
    (L.addRangeEdge uwb).state.optimizer.edges =
      L.optimizer.edges ++
        ([Edge.range ((create_range_edge
            (requester.new_vertex SensorType.range uwb.header
              (responder.new_vertex SensorType.range uwb.header L.optimizer).2.2).1
            (responder.new_vertex SensorType.range uwb.header L.optimizer).1
            uwb.distance (uwb.distance_err ^ 2)).setVertexOffset0 o),
          Edge.range (create_range_edge requester.last_vertex
            (requester.new_vertex SensorType.range uwb.header
              (responder.new_vertex SensorType.range uwb.header L.optimizer).2.2).1
            0 ((L.robot_max_velocity *
              (uwb.header.stamp - requester.last_header.stamp) / 3) ^ 2))] ++
        (if responder.is_static then []
         else [Edge.range (create_range_edge responder.last_vertex
          (responder.new_vertex SensorType.range uwb.header L.optimizer).1 0
          ((L.robot_max_velocity *
            (uwb.header.stamp - responder.last_header.stamp) / 3) ^ 2))])) := by
  obtain ⟨L2, hL2, -, hvel, hrob, hopt, -⟩ :=
    addRangeEdge_in_table L uwb requester responder o hreq hresp hne hf hk hoff
  have h2 : robots_at L2.robots uwb.responder_id =
      some (responder.new_vertex SensorType.range uwb.header L.optimizer).2.1 := by
    rw [hrob, robots_at_assign_ne _ _ _ _ (Ne.symm hne)]
    exact robots_at_assign_self _ _ _ _ hresp
  have h := addRangeEdge_tail_optimizer L2 uwb responder.last_vertex
    (responder.new_vertex SensorType.range uwb.header L.optimizer).1
    (uwb.header.stamp - responder.last_header.stamp) _ h2
  rw [hL2, h.1, h.2, hopt, hvel]
  refine ⟨rfl, ?_⟩
  simp [Robot.is_static, new_vertex_flag, SparseOptimizer.addEdge, new_vertex_edges]

/-- The same-frame branch with an antenna index inside the table returns when the self
agent is registered; the registry then holds the two agents as `new_vertex` left them. -/
theorem addRangeEdge_in_table_returns (L : Localization) (uwb : UwbRange)
    (requester responder self : Robot) (o : Isometry3d)
    (hreq : robots_at L.robots uwb.requester_id = some requester)
    (hresp : robots_at L.robots uwb.responder_id = some responder)
    (hne : uwb.requester_id ≠ uwb.responder_id)
    (hself : robots_at L.robots L.self_id = some self)
    (hf : requester.last_header.frame_id = uwb.header.frame_id ∨
      requester.last_header.frame_id = "none")
    (hk : 0 < uwb.antenna)
    (hoff : offsets_at L.offsets ((uwb.antenna : Int) - 1) = some o) :
    L.addRangeEdge uwb = Outcome.returned (L.addRangeEdge uwb).state ∧
    (L.addRangeEdge uwb).state.robots =
      robots_assign (robots_assign L.robots uwb.responder_id
          (responder.new_vertex SensorType.range uwb.header L.optimizer).2.1)
        uwb.requester_id
        (requester.new_vertex SensorType.range uwb.header
          (responder.new_vertex SensorType.range uwb.header L.optimizer).2.2).2.1 := by
  obtain ⟨L2, hL2, hsid, -, hrob, -, -⟩ :=
    addRangeEdge_in_table L uwb requester responder o hreq hresp hne hf hk hoff
  have h2 : robots_at L2.robots uwb.responder_id =
      some (responder.new_vertex SensorType.range uwb.header L.optimizer).2.1 := by
    rw [hrob, robots_at_assign_ne _ _ _ _ (Ne.symm hne)]
    exact robots_at_assign_self _ _ _ _ hresp
  have hs : (robots_at L2.robots L2.self_id).isSome = true := by
    rw [hrob, hsid]
    simp [robots_at_assign_isSome, hself]
  have h := addRangeEdge_tail_returns L2 uwb responder.last_vertex
    (responder.new_vertex SensorType.range uwb.header L.optimizer).1
    (uwb.header.stamp - responder.last_header.stamp) _ h2 hs
  rw [hL2]
  exact ⟨h.1, h.2.trans hrob⟩

/-- The differing-frame branch: it returns when the self agent is registered, and the graph
it leaves. -/
theorem addRangeEdge_other_frame_graph (L : Localization) (uwb : UwbRange)
    (requester responder self : Robot)
    (hreq : robots_at L.robots uwb.requester_id = some requester)
    (hresp : robots_at L.robots uwb.responder_id = some responder)
    (hne : uwb.requester_id ≠ uwb.responder_id)
    (hself : robots_at L.robots L.self_id = some self)
    (hf : ¬ (requester.last_header.frame_id = uwb.header.frame_id ∨
      requester.last_header.frame_id = "none")) :
    L.addRangeEdge uwb = Outcome.returned (L.addRangeEdge uwb).state ∧
    (L.addRangeEdge uwb).state.optimizer.edges =
      L.optimizer.edges ++
        Edge.range (create_range_edge requester.last_vertex
          (responder.new_vertex SensorType.range uwb.header L.optimizer).1 uwb.distance
          (uwb.distance_err ^ 2 + (L.robot_max_velocity *
            (uwb.header.stamp - requester.last_header.stamp) / 3) ^ 2)) ::
        (if responder.is_static then []
         else [Edge.range (create_range_edge responder.last_vertex
          (responder.new_vertex SensorType.range uwb.header L.optimizer).1 0
          ((L.robot_max_velocity * (uwb.header.stamp - responder.last_header.stamp) / 3) ^ 2))])
      := by
  obtain ⟨L2, hL2, hsid, hvel, hrob, hopt⟩ :=
    addRangeEdge_other_frame L uwb requester responder hreq hresp hne hf
  have h2 : robots_at L2.robots uwb.responder_id =
      some (responder.new_vertex SensorType.range uwb.header L.optimizer).2.1 := by
    rw [hrob]
    exact robots_at_assign_self _ _ _ _ hresp
  have hs : (robots_at L2.robots L2.self_id).isSome = true := by
    rw [hrob, hsid]
    simp [robots_at_assign_isSome, hself]
  have h := addRangeEdge_tail_optimizer L2 uwb responder.last_vertex
    (responder.new_vertex SensorType.range uwb.header L.optimizer).1
    (uwb.header.stamp - responder.last_header.stamp) _ h2
  have hr := addRangeEdge_tail_returns L2 uwb responder.last_vertex
    (responder.new_vertex SensorType.range uwb.header L.optimizer).1
    (uwb.header.stamp - responder.last_header.stamp) _ h2 hs
  rw [hL2]
  refine ⟨hr.1, ?_⟩
  rw [h.2, hopt, hvel]
  simp [Robot.is_static, new_vertex_flag, SparseOptimizer.addEdge, new_vertex_edges]

/-! ## Range measurements: the claims -/

/-- C1 fails at a same-frame measurement with antenna index 0 and a mobile responder: in the
end-to-end start state the anchor 1 requests a range to the self agent 9 (not static), the
last recorded frame of the requester is "none", so the same-frame branch is taken; the
handler adds the direct edge and the requester continuity edge and then, in the log
statement, reads `offsets[-1]` outside the (empty) table, before the responder continuity
edge of lines 271-280: two edges are in the graph where the claim has three. -/
theorem addRangeEdge_stops_before_responder_edge :
    Localization.create scenario_params none = some scenario_start ∧
    robots_at scenario_start.robots anchor_uwb.requester_id = some scenario_anchor ∧
    robots_at scenario_start.robots anchor_uwb.responder_id = some scenario_self ∧
    scenario_self.is_static = false ∧
    scenario_anchor.last_header.frame_id = "none" ∧
    anchor_uwb.antenna = 0 ∧
    offsets_at scenario_start.offsets ((anchor_uwb.antenna : Int) - 1) = none ∧
    ∃ S : Localization,
      scenario_start.addRangeEdge anchor_uwb = Outcome.undefined S ∧
      S.optimizer.edges.length = scenario_start.optimizer.edges.length + 2 ∧
      S.rosout = [] := by
  refine ⟨rfl, rfl, rfl, rfl, rfl, rfl, rfl, ?_⟩
  refine ⟨_, addRangeEdge_antenna_zero scenario_start anchor_uwb scenario_anchor scenario_self
    rfl rfl (by decide) (Or.inl rfl) rfl, ?_, rfl⟩
  decide

/-- C6: a range measurement whose requester or responder is not in the registry makes
`addRangeEdge` end in `std::out_of_range` with the whole state (graph vertices and edges,
registry, key vertex, log) exactly as before. -/
theorem addRangeEdge_unknown_agent (L : Localization) (uwb : UwbRange)
    (h : robots_at L.robots uwb.requester_id = none ∨
      robots_at L.robots uwb.responder_id = none) :
    L.addRangeEdge uwb = Outcome.threw Exception.out_of_range L := by
  unfold Localization.addRangeEdge
  rcases h with h | h
  · simp only [h]
  · cases hq : robots_at L.robots uwb.requester_id <;> simp only [h]

/-- Witness of C6: agent 7 is not registered in the end-to-end scenario. -/
theorem addRangeEdge_unknown_agent_witness :
    robots_at scenario_start.robots 7 = none ∧
    scenario_start.addRangeEdge { scenario_uwb with responder_id := 7 } =
      Outcome.threw Exception.out_of_range scenario_start :=
  ⟨rfl, addRangeEdge_unknown_agent scenario_start { scenario_uwb with responder_id := 7 }
    (Or.inr rfl)⟩


/-- C2, as stated, fails: in the end-to-end scenario, here with two antennas configured and
the measurement naming antenna 2, `addRangeEdge` returns and has not added exactly one edge
to the graph. -/
theorem scenario_not_one_edge :
    Localization.create { scenario_params with antennaOffset := some two_antennas } none =
      some (scenario_state (antenna_offsets two_antennas)) ∧
    (scenario_state (antenna_offsets two_antennas)).addRangeEdge
        { scenario_uwb with antenna := 2 } =
      Outcome.returned ((scenario_state (antenna_offsets two_antennas)).addRangeEdge
        { scenario_uwb with antenna := 2 }).state ∧
    ¬ ∃ e : Edge,
      ((scenario_state (antenna_offsets two_antennas)).addRangeEdge
        { scenario_uwb with antenna := 2 }).state.optimizer.edges =
      (scenario_state (antenna_offsets two_antennas)).optimizer.edges ++ [e] := by
  refine ⟨rfl, rfl, ?_⟩
  rintro ⟨e, h⟩
  have h2 : ((scenario_state (antenna_offsets two_antennas)).addRangeEdge
      { scenario_uwb with antenna := 2 }).state.optimizer.edges.length = 2 := by
    decide
  have h3 := congrArg List.length h
  rw [h2] at h3
  simp [scenario_state] at h3

/-- C2, amended: in the end-to-end scenario, for every configured antenna table and every
antenna index `k > 0` whose entry `offsets[k-1]` is in the table, `addRangeEdge` returns;
exactly one vertex is added to the graph, handle 2, and it joins the window of agent 9; the
window of agent 1 is still its single fixed vertex at (0,0,0), handle 1; and exactly two range
edges are added: the direct edge from the new vertex of agent 9 to the fixed vertex of agent
1 with distance 5, variance 0.01 and the offset of the antenna, and the continuity edge of
distance 0 from the previous last vertex of agent 9 to its new vertex. -/
theorem scenario_range_measurement (a : List ℚ) (k : Nat) (o : Isometry3d)
    (hk : 0 < k)
    (hoff : offsets_at (antenna_offsets a) ((k : Int) - 1) = some o) :
    Localization.create { scenario_params with antennaOffset := some a } none =
      some (scenario_state (antenna_offsets a)) ∧
    (scenario_state (antenna_offsets a)).addRangeEdge { scenario_uwb with antenna := k } =
      Outcome.returned ((scenario_state (antenna_offsets a)).addRangeEdge
        { scenario_uwb with antenna := k }).state ∧
    (scenario_state (antenna_offsets a)).optimizer.vertices =
      [VertexSE3.estimated, VertexSE3.fixedAt (Isometry3d.Identity.setTranslation 0 0 0)] ∧
    ((scenario_state (antenna_offsets a)).addRangeEdge
        { scenario_uwb with antenna := k }).state.optimizer.vertices =
      [VertexSE3.estimated, VertexSE3.fixedAt (Isometry3d.Identity.setTranslation 0 0 0),
        VertexSE3.estimated] ∧
    (robots_at (scenario_state (antenna_offsets a)).robots 9).map Robot.vertices = some [0] ∧
    (robots_at ((scenario_state (antenna_offsets a)).addRangeEdge
        { scenario_uwb with antenna := k }).state.robots 9).map Robot.vertices = some [0, 2] ∧
    (robots_at (scenario_state (antenna_offsets a)).robots 1).map Robot.vertices = some [1] ∧
    (robots_at ((scenario_state (antenna_offsets a)).addRangeEdge
        { scenario_uwb with antenna := k }).state.robots 1).map Robot.vertices = some [1] ∧
    (scenario_state (antenna_offsets a)).optimizer.edges = [] ∧
    ((scenario_state (antenna_offsets a)).addRangeEdge
        { scenario_uwb with antenna := k }).state.optimizer.edges =
      [Edge.range ⟨some 2, some 1, 5, ⟨1 / 100⟩, RobustKernel.PseudoHuber, o⟩,
       Edge.range ⟨some 0, some 2, 0, ⟨1 / 9⟩, RobustKernel.PseudoHuber,
         EdgeSE3Range.unsetVertexOffset⟩] := by
  have hne : ({ scenario_uwb with antenna := k } : UwbRange).requester_id ≠
      ({ scenario_uwb with antenna := k } : UwbRange).responder_id :=
    show (9 : Nat) ≠ 1 by decide
  have hg := addRangeEdge_in_table_graph (scenario_state (antenna_offsets a))
    { scenario_uwb with antenna := k } scenario_self scenario_anchor o
    rfl rfl hne (Or.inl rfl) hk hoff
  have hr := addRangeEdge_in_table_returns (scenario_state (antenna_offsets a))
    { scenario_uwb with antenna := k } scenario_self scenario_anchor scenario_self o
    rfl rfl hne rfl (Or.inl rfl) hk hoff
  refine ⟨rfl, hr.1, rfl, ?_, rfl, ?_, rfl, ?_, rfl, ?_⟩
  · rw [hg.1]; rfl
  · rw [hr.2]; rfl
  · rw [hr.2]; rfl
  · rw [hg.2]
    have h : (scenario_state (antenna_offsets a)).optimizer.edges ++
        ([Edge.range ((create_range_edge
            (scenario_self.new_vertex SensorType.range scenario_uwb.header
              (scenario_anchor.new_vertex SensorType.range scenario_uwb.header
                (scenario_state (antenna_offsets a)).optimizer).2.2).1
            (scenario_anchor.new_vertex SensorType.range scenario_uwb.header
              (scenario_state (antenna_offsets a)).optimizer).1
            scenario_uwb.distance (scenario_uwb.distance_err ^ 2)).setVertexOffset0 o),
          Edge.range (create_range_edge scenario_self.last_vertex
            (scenario_self.new_vertex SensorType.range scenario_uwb.header
              (scenario_anchor.new_vertex SensorType.range scenario_uwb.header
                (scenario_state (antenna_offsets a)).optimizer).2.2).1
            0 (((scenario_state (antenna_offsets a)).robot_max_velocity *
              (scenario_uwb.header.stamp - scenario_self.last_header.stamp) / 3) ^ 2))] ++
        (if scenario_anchor.is_static then []
         else [Edge.range (create_range_edge scenario_anchor.last_vertex
          (scenario_anchor.new_vertex SensorType.range scenario_uwb.header
            (scenario_state (antenna_offsets a)).optimizer).1 0
          (((scenario_state (antenna_offsets a)).robot_max_velocity *
            (scenario_uwb.header.stamp - scenario_anchor.last_header.stamp) / 3) ^ 2))])) =
        [Edge.range ⟨some 2, some 1, 5, ⟨(1 / 10) ^ 2⟩, RobustKernel.PseudoHuber, o⟩,
         Edge.range ⟨some 0, some 2, 0, ⟨(1 * (1 - 0) / 3) ^ 2⟩, RobustKernel.PseudoHuber,
           EdgeSE3Range.unsetVertexOffset⟩] := rfl
    refine h.trans ?_
    norm_num

/-- Witness of C2 amended: two antennas configured, the measurement names antenna 2, at
(0.1, 0, 0). -/
theorem scenario_range_measurement_witness :
    ((scenario_state (antenna_offsets two_antennas)).addRangeEdge
        { scenario_uwb with antenna := 2 }).state.optimizer.vertices =
      [VertexSE3.estimated, VertexSE3.fixedAt (Isometry3d.Identity.setTranslation 0 0 0),
        VertexSE3.estimated] ∧
    ((scenario_state (antenna_offsets two_antennas)).addRangeEdge
        { scenario_uwb with antenna := 2 }).state.optimizer.edges =
      [Edge.range ⟨some 2, some 1, 5, ⟨1 / 100⟩, RobustKernel.PseudoHuber,
         Isometry3d.Identity.setTranslation (1 / 10) 0 0⟩,
       Edge.range ⟨some 0, some 2, 0, ⟨1 / 9⟩, RobustKernel.PseudoHuber,
         EdgeSE3Range.unsetVertexOffset⟩] := by
  have h := scenario_range_measurement two_antennas 2
    (Isometry3d.Identity.setTranslation (1 / 10) 0 0) (by decide) rfl
  exact ⟨h.2.2.2.1, h.2.2.2.2.2.2.2.2.2⟩

/-- C5: in the same-frame branch, the direct range edge of a measurement with antenna index 0
(the first edge the handler adds; with antenna 0 the handler then ends at the read of the log
statement) keeps the vertex offset of a new edge, and the direct range edge of the same
measurement with an antenna index `k > 0` whose table entry is `o` has the same endpoints,
distance, information and kernel and the vertex offset `o`. Hence, when `o` is the identity
with the all-zero translation, the two edges are one and the same. -/
theorem addRangeEdge_zero_offset_edge (L : Localization) (uwb : UwbRange)
    (requester responder : Robot) (k : Nat) (o : Isometry3d)
    (hreq : robots_at L.robots uwb.requester_id = some requester)
    (hresp : robots_at L.robots uwb.responder_id = some responder)
    (hne : uwb.requester_id ≠ uwb.responder_id)
    (hf : requester.last_header.frame_id = uwb.header.frame_id ∨
      requester.last_header.frame_id = "none")
    (hk : 0 < k)
    (hoff : offsets_at L.offsets ((k : Int) - 1) = some o) :
    ∃ e0 ek : EdgeSE3Range,
      (L.addRangeEdge { uwb with antenna := 0 }).state.optimizer.edges.get?
        L.optimizer.edges.length = some (Edge.range e0) ∧
      (L.addRangeEdge { uwb with antenna := k }).state.optimizer.edges.get?
        L.optimizer.edges.length = some (Edge.range ek) ∧
      ek.vertex0 = e0.vertex0 ∧
      ek.vertex1 = e0.vertex1 ∧
      ek.measurement = e0.measurement ∧
      ek.information = e0.information ∧
      ek.robustKernel = e0.robustKernel ∧
      e0.measurement = uwb.distance ∧
      e0.information.of = uwb.distance_err ^ 2 ∧
      e0.vertexOffset0 = EdgeSE3Range.unsetVertexOffset ∧
      ek.vertexOffset0 = o ∧
      (o = Isometry3d.Identity.setTranslation 0 0 0 → ek = e0) := by
  have h0 := addRangeEdge_antenna_zero L { uwb with antenna := 0 } requester responder
    hreq hresp hne hf rfl
  have hg := addRangeEdge_in_table_graph L { uwb with antenna := k } requester responder o
    hreq hresp hne hf hk hoff
  refine ⟨create_range_edge
      (requester.new_vertex SensorType.range uwb.header
        (responder.new_vertex SensorType.range uwb.header L.optimizer).2.2).1
      (responder.new_vertex SensorType.range uwb.header L.optimizer).1
      uwb.distance (uwb.distance_err ^ 2),
    (create_range_edge
      (requester.new_vertex SensorType.range uwb.header
        (responder.new_vertex SensorType.range uwb.header L.optimizer).2.2).1
      (responder.new_vertex SensorType.range uwb.header L.optimizer).1
      uwb.distance (uwb.distance_err ^ 2)).setVertexOffset0 o,
    ?_, ?_, rfl, rfl, rfl, rfl, rfl, rfl, rfl, rfl, rfl, ?_⟩
  · rw [h0]
    simp only [Outcome.state, SparseOptimizer.addEdge, new_vertex_edges, List.append_assoc,
      List.singleton_append]
    exact get?_append_length _ _ _
  · rw [hg.2]
    exact get?_append_length _ _ _
  · intro ho
    rw [ho]
    rfl

/-- Witness of C5: two antennas configured, the first at the body-frame origin; antenna
index 1 gives the same direct edge as antenna index 0. -/
theorem addRangeEdge_zero_offset_edge_witness :
    ∃ e0 ek : EdgeSE3Range,
      ((scenario_state (antenna_offsets two_antennas)).addRangeEdge
        { scenario_uwb with antenna := 0 }).state.optimizer.edges.get? 0 =
          some (Edge.range e0) ∧
      ((scenario_state (antenna_offsets two_antennas)).addRangeEdge
        { scenario_uwb with antenna := 1 }).state.optimizer.edges.get? 0 =
          some (Edge.range ek) ∧
      e0.measurement = 5 ∧
      e0.information.of = (1 / 10) ^ 2 ∧
      e0.vertexOffset0 = EdgeSE3Range.unsetVertexOffset ∧
      ek.vertexOffset0 = Isometry3d.Identity.setTranslation 0 0 0 ∧
      ek = e0 := by
  obtain ⟨e0, ek, h1, h2, -, -, -, -, -, h8, h9, h10, h11, h12⟩ :=
    addRangeEdge_zero_offset_edge (scenario_state (antenna_offsets two_antennas))
      scenario_uwb scenario_self scenario_anchor 1 (Isometry3d.Identity.setTranslation 0 0 0)
      rfl rfl (by decide) (Or.inl rfl) (by decide) rfl
  exact ⟨e0, ek, h1, h2, h8, h9, h10, h11, h12 rfl⟩

/-- C7, as stated, fails: both agents are registered, no antenna offset is configured and the
measurement names antenna 5, yet `addRangeEdge` returns without any error and has added an
edge to the graph. The state is the end-to-end start state after one pose measurement in
frame "map"; the range measurement is in frame "odom". -/
theorem addRangeEdge_unknown_antenna_counterexample :
    Localization.create scenario_params none = some scenario_start ∧
    scenario_posed = (scenario_start.addPoseEdge (pose_in "map" 1 5)).state ∧
    (robots_at scenario_posed.robots scenario_uwb_odom.requester_id).isSome = true ∧
    (robots_at scenario_posed.robots scenario_uwb_odom.responder_id).isSome = true ∧
    scenario_posed.offsets.length < scenario_uwb_odom.antenna ∧
    scenario_posed.addRangeEdge scenario_uwb_odom =
      Outcome.returned (scenario_posed.addRangeEdge scenario_uwb_odom).state ∧
    (scenario_posed.addRangeEdge scenario_uwb_odom).state.optimizer.edges.length =
      scenario_posed.optimizer.edges.length + 1 := by
  refine ⟨rfl, rfl, rfl, rfl, by decide, rfl, by decide⟩

/-- C7, amended: there is no unknown-antenna error. For two distinct registered agents (the
self agent being registered), when the last recorded frame id of the requester differs from
the frame id of the measurement and is not "none", `addRangeEdge` returns whatever the
antenna index is, also one above the size of the offset table, and has added the direct edge
from the last vertex of the requester to the vertex of the responder, followed by the
responder continuity edge exactly when the responder is not static. -/
theorem addRangeEdge_antenna_not_checked (L : Localization) (uwb : UwbRange)
    (requester responder self : Robot)
    (hreq : robots_at L.robots uwb.requester_id = some requester)
    (hresp : robots_at L.robots uwb.responder_id = some responder)
    (hne : uwb.requester_id ≠ uwb.responder_id)
    (hself : robots_at L.robots L.self_id = some self)
    (hf : ¬ (requester.last_header.frame_id = uwb.header.frame_id ∨
      requester.last_header.frame_id = "none")) :
    L.addRangeEdge uwb = Outcome.returned (L.addRangeEdge uwb).state ∧
    (L.addRangeEdge uwb).state.optimizer.edges =
      L.optimizer.edges ++
        Edge.range (create_range_edge requester.last_vertex
          (responder.new_vertex SensorType.range uwb.header L.optimizer).1 uwb.distance
          (uwb.distance_err ^ 2 + (L.robot_max_velocity *
            (uwb.header.stamp - requester.last_header.stamp) / 3) ^ 2)) ::
        (if responder.is_static then []
         else [Edge.range (create_range_edge responder.last_vertex
          (responder.new_vertex SensorType.range uwb.header L.optimizer).1 0
          ((L.robot_max_velocity * (uwb.header.stamp - responder.last_header.stamp) / 3) ^ 2))])
      :=
  addRangeEdge_other_frame_graph L uwb requester responder self hreq hresp hne hself hf

/-- Witness of C7 amended: the measurement in frame "odom" with antenna 5, after a pose
measurement in frame "map". -/
theorem addRangeEdge_antenna_not_checked_witness :
    scenario_posed.addRangeEdge scenario_uwb_odom =
      Outcome.returned (scenario_posed.addRangeEdge scenario_uwb_odom).state ∧
    (scenario_posed.addRangeEdge scenario_uwb_odom).state.optimizer.edges =
      scenario_posed.optimizer.edges ++
        [Edge.range (create_range_edge (some 2) (some 1) 4
          ((1 / 10) ^ 2 + (1 * (6 - 5) / 3) ^ 2))] :=
  addRangeEdge_antenna_not_checked scenario_posed scenario_uwb_odom posed_self
    scenario_anchor posed_self rfl rfl (by decide) rfl (by decide)

/-- C9 fails at antenna index 0: the index `uwb->antenna-1` read by the log statement of the
same-frame branch is -1, which is outside every offset table, and in the end-to-end scenario
(antenna 0, same-frame branch) the handler gets past the guarded read, adds the two edges of
the branch and ends at the read of the log statement, before the statement has logged. -/
theorem addRangeEdge_log_reads_outside_table :
    (∀ offsets : List Isometry3d, offsets_at offsets (((0 : Nat) : Int) - 1) = none) ∧
    scenario_uwb.antenna = 0 ∧
    Localization.create scenario_params none = some scenario_start ∧
    ∃ S : Localization,
      scenario_start.addRangeEdge scenario_uwb = Outcome.undefined S ∧
      S.optimizer.edges.length = scenario_start.optimizer.edges.length + 2 ∧
      S.rosout = [] := by
  refine ⟨fun offsets => ?_, rfl, rfl, ?_⟩
  · simp [offsets_at]
  · refine ⟨_, addRangeEdge_antenna_zero scenario_start scenario_uwb scenario_self
      scenario_anchor rfl rfl (by decide) (Or.inl rfl) rfl, ?_, rfl⟩
    decide

/-! ## Pose measurements -/

/-- The state `addPoseEdge` leaves when the self agent is registered. -/
theorem addPoseEdge_state (L : Localization) (p : PoseWithCovarianceStamped) (self : Robot)
    (hself : robots_at L.robots L.self_id = some self) :
    L.addPoseEdge p = Outcome.returned (L.addPoseEdge p).state ∧
    (L.addPoseEdge p).state.self_id = L.self_id ∧
    (L.addPoseEdge p).state.key_vertex =
      (if p.header.frame_id ≠ (self.last_header_on SensorType.pose).frame_id then
        self.last_vertex_on SensorType.pose else L.key_vertex) ∧
    (L.addPoseEdge p).state.robots =
      robots_assign L.robots L.self_id
        (self.new_vertex SensorType.pose p.header L.optimizer).2.1 ∧
    (L.addPoseEdge p).state.optimizer =
      (self.new_vertex SensorType.pose p.header L.optimizer).2.2.addEdge
        (Edge.se3
          { vertex0 :=
              (if p.header.frame_id ≠ (self.last_header_on SensorType.pose).frame_id then
                self.last_vertex_on SensorType.pose else L.key_vertex)
            vertex1 := (self.new_vertex SensorType.pose p.header L.optimizer).1
            measurement := poseMsgToEigen p.pose
            information := ⟨mapMatrix6 p.covariance⟩
            robustKernel := RobustKernel.Huber }) := by
  unfold Localization.addPoseEdge
  simp only [hself]
  apply solve_and_publish_state
  simp [robots_at_assign_isSome, hself]

/-- One pose measurement handled for a registered, mobile self agent. -/
theorem addPoseEdge_step (L : Localization) (p : PoseWithCovarianceStamped) (self : Robot)
    (hself : robots_at L.robots L.self_id = some self)
    (hm : self.FLAG_STATIC = false) :
    (L.addPoseEdge p).state.self_id = L.self_id ∧
    (L.addPoseEdge p).state.key_vertex =
      (if p.header.frame_id ≠ (self.last_header_on SensorType.pose).frame_id then
        self.last_vertex_on SensorType.pose else L.key_vertex) ∧
    (L.addPoseEdge p).state.optimizer.vertices.length = L.optimizer.vertices.length + 1 ∧
    (∃ e : EdgeSE3,
      (L.addPoseEdge p).state.optimizer.edges = L.optimizer.edges ++ [Edge.se3 e] ∧
      e.vertex0 = (L.addPoseEdge p).state.key_vertex ∧
      e.vertex1 = some L.optimizer.vertices.length) ∧
    ∃ self' : Robot,
      robots_at (L.addPoseEdge p).state.robots (L.addPoseEdge p).state.self_id = some self' ∧
      self'.FLAG_STATIC = false ∧
      (self'.last_header_on SensorType.pose).frame_id = p.header.frame_id ∧
      self'.last_vertex_on SensorType.pose = some L.optimizer.vertices.length := by
  obtain ⟨_, h1, h2, h3, h4⟩ := addPoseEdge_state L p self hself
  obtain ⟨n1, n2, n3, _, n5⟩ := new_vertex_mobile self SensorType.pose p.header L.optimizer hm
  refine ⟨h1, h2, ?_, ?_, ?_⟩
  · rw [h4, n2]
    simp [SparseOptimizer.addEdge, SparseOptimizer.addVertex]
  · refine ⟨EdgeSE3.mk
        (if p.header.frame_id ≠ (self.last_header_on SensorType.pose).frame_id then
          self.last_vertex_on SensorType.pose else L.key_vertex)
        (self.new_vertex SensorType.pose p.header L.optimizer).1
        (poseMsgToEigen p.pose) ⟨mapMatrix6 p.covariance⟩ RobustKernel.Huber, ?_, ?_, ?_⟩
    · rw [h4, n2]
      rfl
    · exact h2.symm
    · exact n1
  · refine ⟨(self.new_vertex SensorType.pose p.header L.optimizer).2.1, ?_, ?_, ?_, n5⟩
    · rw [h3, h1]
      exact robots_at_assign_self _ _ _ _ hself
    · rw [new_vertex_flag, hm]
    · rw [n3]

/-- C3: for four pose measurements handled in a row with frame identifiers A, A, B, B, A
different from B, by a registered mobile self agent, the edge added for the first B
measurement starts at the vertex created by the second A measurement (the second endpoint of
the edge of the second A measurement), and that vertex is neither of the two vertices created
under frame B (the second endpoints of the edges of the two B measurements); the edge of the
second B measurement starts at the same vertex. -/
theorem addPoseEdge_frame_change_anchor (L : Localization)
    (p1 p2 p3 p4 : PoseWithCovarianceStamped) (self : Robot)
    (hself : robots_at L.robots L.self_id = some self)
    (hm : self.FLAG_STATIC = false)
    (h12 : p2.header.frame_id = p1.header.frame_id)
    (h34 : p4.header.frame_id = p3.header.frame_id)
    (hAB : p1.header.frame_id ≠ p3.header.frame_id) :
    ∃ e2 e3 e4 : EdgeSE3,
      (pose_run L [p1, p2]).optimizer.edges =
        (pose_run L [p1]).optimizer.edges ++ [Edge.se3 e2] ∧
      (pose_run L [p1, p2, p3]).optimizer.edges =
        (pose_run L [p1, p2]).optimizer.edges ++ [Edge.se3 e3] ∧
      (pose_run L [p1, p2, p3, p4]).optimizer.edges =
        (pose_run L [p1, p2, p3]).optimizer.edges ++ [Edge.se3 e4] ∧
      e2.vertex1 = some (pose_run L [p1]).optimizer.vertices.length ∧
      (pose_run L [p1, p2]).optimizer.vertices.length =
        (pose_run L [p1]).optimizer.vertices.length + 1 ∧
      e3.vertex0 = e2.vertex1 ∧
      e3.vertex0 ≠ e3.vertex1 ∧
      e3.vertex0 ≠ e4.vertex1 ∧
      e4.vertex0 = e3.vertex0 := by
  obtain ⟨i1, -, v1, -, s1, hs1, hm1, hf1, -⟩ := addPoseEdge_step L p1 self hself hm
  obtain ⟨i2, -, v2, ⟨e2, he2, -, hb2⟩, s2, hs2, hm2, hf2, hv2⟩ :=
    addPoseEdge_step (L.addPoseEdge p1).state p2 s1 hs1 hm1
  obtain ⟨i3, k3, v3, ⟨e3, he3, ha3, hb3⟩, s3, hs3, hm3, hf3, -⟩ :=
    addPoseEdge_step ((L.addPoseEdge p1).state.addPoseEdge p2).state p3 s2 hs2 hm2
  obtain ⟨-, k4, -, ⟨e4, he4, ha4, hb4⟩, -⟩ :=
    addPoseEdge_step (((L.addPoseEdge p1).state.addPoseEdge p2).state.addPoseEdge p3).state
      p4 s3 hs3 hm3
  have hne : p3.header.frame_id ≠ (s2.last_header_on SensorType.pose).frame_id := by
    rw [hf2, h12]
    exact fun h => hAB h.symm
  have h0 : e3.vertex0 = some (L.addPoseEdge p1).state.optimizer.vertices.length := by
    rw [ha3, k3, if_pos hne, hv2]
  refine ⟨e2, e3, e4, he2, he3, he4, hb2, v2, ?_, ?_, ?_, ?_⟩
  · rw [h0, hb2]
  · rw [h0, hb3, v2]
    simp
  · rw [h0, hb4, v3, v2]
    simp
    omega
  · rw [ha4, k4, hf3, h34, if_neg (fun h => h rfl), ha3]

/-- Witness of C3: frames "map", "map", "odom", "odom" from the end-to-end start state. -/
theorem addPoseEdge_frame_change_anchor_witness :
    ∃ e2 e3 e4 : EdgeSE3,
      (pose_run scenario_start [pose_in "map" 1 1, pose_in "map" 2 2]).optimizer.edges =
        (pose_run scenario_start [pose_in "map" 1 1]).optimizer.edges ++ [Edge.se3 e2] ∧
      (pose_run scenario_start
          [pose_in "map" 1 1, pose_in "map" 2 2, pose_in "odom" 3 3]).optimizer.edges =
        (pose_run scenario_start [pose_in "map" 1 1, pose_in "map" 2 2]).optimizer.edges ++
          [Edge.se3 e3] ∧
      (pose_run scenario_start
          [pose_in "map" 1 1, pose_in "map" 2 2, pose_in "odom" 3 3,
            pose_in "odom" 4 4]).optimizer.edges =
        (pose_run scenario_start
          [pose_in "map" 1 1, pose_in "map" 2 2, pose_in "odom" 3 3]).optimizer.edges ++
          [Edge.se3 e4] ∧
      e2.vertex1 = some (pose_run scenario_start [pose_in "map" 1 1]).optimizer.vertices.length ∧
      (pose_run scenario_start [pose_in "map" 1 1, pose_in "map" 2 2]).optimizer.vertices.length =
        (pose_run scenario_start [pose_in "map" 1 1]).optimizer.vertices.length + 1 ∧
      e3.vertex0 = e2.vertex1 ∧
      e3.vertex0 ≠ e3.vertex1 ∧
      e3.vertex0 ≠ e4.vertex1 ∧
      e4.vertex0 = e3.vertex0 :=
  addPoseEdge_frame_change_anchor scenario_start (pose_in "map" 1 1) (pose_in "map" 2 2)
    (pose_in "odom" 3 3) (pose_in "odom" 4 4) scenario_self rfl rfl rfl rfl (by decide)

/-- C10: with the self agent registered, a pose measurement whose frame identifier equals the
last recorded pose-channel frame identifier of the self agent leaves the key vertex unchanged
and the one edge it adds starts at that key vertex. Hence, for a mobile self agent, two pose
measurements in a row with the same frame identifier add two edges with the same first
endpoint; and when the key vertex and the last pose-channel vertex of the self agent are
vertices of the graph (or null), that first endpoint is not the vertex created by the first of
the two measurements. -/
theorem addPoseEdge_key_vertex_sticky (L : Localization)
    (p1 p2 : PoseWithCovarianceStamped) (self : Robot)
    (hself : robots_at L.robots L.self_id = some self) :
    (p1.header.frame_id = (self.last_header_on SensorType.pose).frame_id →
      (L.addPoseEdge p1).state.key_vertex = L.key_vertex ∧
      ∃ e : EdgeSE3,
        (L.addPoseEdge p1).state.optimizer.edges = L.optimizer.edges ++ [Edge.se3 e] ∧
        e.vertex0 = L.key_vertex) ∧
    (self.FLAG_STATIC = false → p2.header.frame_id = p1.header.frame_id →
      ∃ e1 e2 : EdgeSE3,
        (pose_run L [p1]).optimizer.edges = L.optimizer.edges ++ [Edge.se3 e1] ∧
        (pose_run L [p1, p2]).optimizer.edges =
          (pose_run L [p1]).optimizer.edges ++ [Edge.se3 e2] ∧
        e2.vertex0 = e1.vertex0 ∧
        e1.vertex1 = some L.optimizer.vertices.length ∧
        ((∀ v, L.key_vertex = some v → v < L.optimizer.vertices.length) →
         (∀ v, self.last_vertex_on SensorType.pose = some v → v < L.optimizer.vertices.length) →
          e2.vertex0 ≠ e1.vertex1)) := by
  constructor
  · intro hf
    obtain ⟨-, -, h2, -, h4⟩ := addPoseEdge_state L p1 self hself
    have hk : (L.addPoseEdge p1).state.key_vertex = L.key_vertex := by
      rw [h2, if_neg (fun h => h hf)]
    refine ⟨hk, EdgeSE3.mk L.key_vertex
      (self.new_vertex SensorType.pose p1.header L.optimizer).1
      (poseMsgToEigen p1.pose) ⟨mapMatrix6 p1.covariance⟩ RobustKernel.Huber, ?_, rfl⟩
    rw [h4, if_neg (fun h => h hf)]
    simp only [SparseOptimizer.addEdge, new_vertex_edges]
  · intro hm h21
    obtain ⟨-, k1, -, ⟨e1, he1, ha1, hb1⟩, s1, hs1, hm1, hf1, -⟩ :=
      addPoseEdge_step L p1 self hself hm
    obtain ⟨-, k2, -, ⟨e2, he2, ha2, -⟩, -⟩ :=
      addPoseEdge_step (L.addPoseEdge p1).state p2 s1 hs1 hm1
    have h21' : e2.vertex0 = e1.vertex0 := by
      rw [ha2, k2, hf1, h21, if_neg (fun h => h rfl), ha1]
    refine ⟨e1, e2, he1, he2, h21', hb1, ?_⟩
    intro hkey hlast heq
    rw [h21', ha1, k1, hb1] at heq
    split at heq
    · exact absurd (hlast _ heq) (lt_irrefl _)
    · exact absurd (hkey _ heq) (lt_irrefl _)

/-- Witness of C10: after a pose measurement in frame "map" (which makes the initial vertex,
handle 0, the key vertex), two more pose measurements in frame "map": both edges start at
vertex 0, the first ends at the new vertex 3. -/
theorem addPoseEdge_key_vertex_sticky_witness :
    scenario_posed.key_vertex = some 0 ∧
    ((scenario_posed.addPoseEdge (pose_in "map" 2 6)).state.key_vertex =
        scenario_posed.key_vertex ∧
      ∃ e : EdgeSE3,
        (scenario_posed.addPoseEdge (pose_in "map" 2 6)).state.optimizer.edges =
          scenario_posed.optimizer.edges ++ [Edge.se3 e] ∧
        e.vertex0 = scenario_posed.key_vertex) ∧
    ∃ e1 e2 : EdgeSE3,
      (pose_run scenario_posed [pose_in "map" 2 6]).optimizer.edges =
        scenario_posed.optimizer.edges ++ [Edge.se3 e1] ∧
      (pose_run scenario_posed [pose_in "map" 2 6, pose_in "map" 3 7]).optimizer.edges =
        (pose_run scenario_posed [pose_in "map" 2 6]).optimizer.edges ++ [Edge.se3 e2] ∧
      e2.vertex0 = e1.vertex0 ∧
      e1.vertex0 = some 0 ∧
      e1.vertex1 = some scenario_posed.optimizer.vertices.length ∧
      scenario_posed.optimizer.vertices.length = 3 ∧
      e2.vertex0 ≠ e1.vertex1 := by
  have h := addPoseEdge_key_vertex_sticky scenario_posed (pose_in "map" 2 6)
    (pose_in "map" 3 7) posed_self rfl
  obtain ⟨hk, e, he, he0⟩ := h.1 rfl
  obtain ⟨e1, e2, h1, h2, h3, h4, h5⟩ := h.2 rfl rfl
  have hkey : scenario_posed.key_vertex = some 0 := rfl
  have hlast : posed_self.last_vertex_on SensorType.pose = some 2 := rfl
  have hlen : scenario_posed.optimizer.vertices.length = 3 := rfl
  have he1 : e1.vertex0 = some 0 := by
    have hh : (pose_run scenario_posed [pose_in "map" 2 6]).optimizer.edges =
        scenario_posed.optimizer.edges ++ [Edge.se3 e] := he
    rw [h1] at hh
    have := List.append_cancel_left hh
    simp only [List.cons.injEq, Edge.se3.injEq, and_true] at this
    rw [this, he0, hkey]
  refine ⟨hkey, ⟨hk, e, he, he0⟩, e1, e2, h1, h2, h3, he1, h4, hlen, h5 ?_ ?_⟩
  · intro v hv
    rw [hkey] at hv
    cases hv
    rw [hlen]
    decide
  · intro v hv
    rw [hlast] at hv
    cases hv
    rw [hlen]
    decide

/-! ## Twist measurements -/

/-- C4: when `tfSin 0 = 0` and `tfCos 0 = 1`, for every linear velocity and every elapsed time
`dt`, `twist2transform` on a twist with angular velocity 0 returns the transform whose
translation is the linear velocity times `dt` and whose rotation is the identity, and leaves
in `covariance` the 6x6 matrix whose entry `(i, j)` is the entry `i + 6 * j` of the input
covariance array (its 6x6 column-major view) times `dt * dt`; for `dt = 1/2` and linear
velocity (1,0,0) the transform is the identity rotation with translation (1/2,0,0). -/
theorem twist2transform_zero_angular (m : TfMath) (twist : TwistWithCovariance) (dt : ℚ)
    (hsin : m.tfSin 0 = 0) (hcos : m.tfCos 0 = 1)
    (hang : twist.angular = ⟨0, 0, 0⟩) :
    (twist2transform m twist dt).1.translation =
      ⟨twist.linear.x * dt, twist.linear.y * dt, twist.linear.z * dt⟩ ∧
    (twist2transform m twist dt).1.row0 = ⟨1, 0, 0⟩ ∧
    (twist2transform m twist dt).1.row1 = ⟨0, 1, 0⟩ ∧
    (twist2transform m twist dt).1.row2 = ⟨0, 0, 1⟩ ∧
    (∀ i j : Fin 6, (twist2transform m twist dt).2 i j =
      twist.covariance ⟨i.val + 6 * j.val, by omega⟩ * (dt * dt)) ∧
    (twist.linear = ⟨1, 0, 0⟩ → dt = 1 / 2 →
      (twist2transform m twist dt).1 = Isometry3d.Identity.setTranslation (1 / 2) 0 0) := by
  have hq : setRPY m (twist.angular.x * dt) (twist.angular.y * dt) (twist.angular.z * dt) =
      ⟨0, 0, 0, 1⟩ := by
    rw [hang]
    simp [setRPY, hsin, hcos]
  have hrot : ∀ o : Vector3, transformTFToEigen ⟨0, 0, 0, 1⟩ o =
      { row0 := ⟨1, 0, 0⟩, row1 := ⟨0, 1, 0⟩, row2 := ⟨0, 0, 1⟩, translation := o } := by
    intro o
    simp [transformTFToEigen]
  have ht : (twist2transform m twist dt).1 =
      { row0 := ⟨1, 0, 0⟩, row1 := ⟨0, 1, 0⟩, row2 := ⟨0, 0, 1⟩,
        translation := twist.linear.scale dt } := by
    simp only [twist2transform, hq, hrot]
  refine ⟨?_, ?_, ?_, ?_, ?_, ?_⟩
  · rw [ht]; rfl
  · rw [ht]
  · rw [ht]
  · rw [ht]
  · intro i j
    simp only [twist2transform, mapMatrix6]
    ring
  · intro hl hdt
    rw [ht, hl, hdt]
    simp [Vector3.scale, Isometry3d.setTranslation, Isometry3d.Identity]

/-- Witness of C4: `dt = 1/2`, linear velocity (1,0,0), angular velocity 0, covariance array
1, ..., 36: the output entry (1, 2) is the array entry 13, which is 14, times 1/4. -/
theorem twist2transform_zero_angular_witness :
    series_math.tfSin 0 = 0 ∧ series_math.tfCos 0 = 1 ∧
    (twist2transform series_math forward_twist (1 / 2)).1 =
      Isometry3d.Identity.setTranslation (1 / 2) 0 0 ∧
    (∀ i j : Fin 6, (twist2transform series_math forward_twist (1 / 2)).2 i j =
      forward_twist.covariance ⟨i.val + 6 * j.val, by omega⟩ * (1 / 2 * (1 / 2))) ∧
    (twist2transform series_math forward_twist (1 / 2)).2 1 2 = 7 / 2 := by
  have hsin : series_math.tfSin 0 = 0 := by norm_num [series_math]
  have hcos : series_math.tfCos 0 = 1 := by norm_num [series_math]
  have h := twist2transform_zero_angular series_math forward_twist (1 / 2) hsin hcos rfl
  refine ⟨hsin, hcos, h.2.2.2.2.2 rfl rfl, h.2.2.2.2.1, ?_⟩
  rw [h.2.2.2.2.1 1 2]
  norm_num [forward_twist]

/-- C8, as stated, fails: after a pose measurement stamped 5, a twist measurement stamped 3
has dt = -2, yet `addTwistEdge` returns without any error and has created a vertex and added
an edge. -/
theorem addTwistEdge_nonpositive_dt_counterexample :
    Localization.create scenario_params none = some scenario_start ∧
    scenario_posed = (scenario_start.addPoseEdge (pose_in "map" 1 5)).state ∧
    robots_at scenario_posed.robots scenario_posed.self_id = some posed_self ∧
    late_twist.header.stamp - posed_self.last_header.stamp ≤ 0 ∧
    scenario_posed.addTwistEdge series_math late_twist =
      Outcome.returned (scenario_posed.addTwistEdge series_math late_twist).state ∧
    (scenario_posed.addTwistEdge series_math late_twist).state.optimizer.vertices.length =
      scenario_posed.optimizer.vertices.length + 1 ∧
    (scenario_posed.addTwistEdge series_math late_twist).state.optimizer.edges.length =
      scenario_posed.optimizer.edges.length + 1 := by
  refine ⟨rfl, rfl, rfl, ?_, rfl, by decide, by decide⟩
  have h1 : late_twist.header.stamp = 3 := rfl
  have h2 : posed_self.last_header.stamp = 5 := rfl
  rw [h1, h2]
  norm_num

/-- C8, amended: `addTwistEdge` has no check on the elapsed time. For a registered mobile self
agent and every twist measurement, also one with `dt <= 0`, it returns, creates exactly one
new self vertex and adds exactly one edge, from the previous last vertex of the self agent to
the new vertex, built by `create_se3_edge_from_twist` from the twist and `dt`. -/
theorem addTwistEdge_no_time_check (L : Localization) (m : TfMath)
    (twist : TwistWithCovarianceStamped) (self : Robot)
    (hself : robots_at L.robots L.self_id = some self)
    (hm : self.FLAG_STATIC = false) :
    L.addTwistEdge m twist = Outcome.returned (L.addTwistEdge m twist).state ∧
    (L.addTwistEdge m twist).state.optimizer.vertices =
      L.optimizer.vertices ++ [VertexSE3.estimated] ∧
    (L.addTwistEdge m twist).state.optimizer.edges =
      L.optimizer.edges ++
        [Edge.se3 (create_se3_edge_from_twist m self.last_vertex
          (some L.optimizer.vertices.length) twist.twist
          (twist.header.stamp - self.last_header.stamp))] := by
  obtain ⟨n1, n2, -⟩ := new_vertex_mobile self SensorType.twist twist.header L.optimizer hm
  unfold Localization.addTwistEdge
  simp only [hself]
  have h := solve_and_publish_state
    { L with
        robots := robots_assign L.robots L.self_id
          (self.new_vertex SensorType.twist twist.header L.optimizer).2.1
        optimizer := (self.new_vertex SensorType.twist twist.header L.optimizer).2.2.addEdge
          (Edge.se3 (create_se3_edge_from_twist m self.last_vertex
            (self.new_vertex SensorType.twist twist.header L.optimizer).1 twist.twist
            (twist.header.stamp - self.last_header.stamp)))
        rosout := L.rosout ++ [LogRecord.added_twist_edge twist.header.seq] }
    L.publish_twist (by simp [robots_at_assign_isSome, hself])
  obtain ⟨h1, -, -, -, h5⟩ := h
  refine ⟨h1, ?_, ?_⟩
  · rw [h5, n2]; rfl
  · rw [h5, n2, n1]; rfl

/-- Witness of C8 amended: the twist stamped 3 after the pose measurement stamped 5. -/
theorem addTwistEdge_no_time_check_witness :
    scenario_posed.addTwistEdge series_math late_twist =
      Outcome.returned (scenario_posed.addTwistEdge series_math late_twist).state ∧
    (scenario_posed.addTwistEdge series_math late_twist).state.optimizer.vertices =
      scenario_posed.optimizer.vertices ++ [VertexSE3.estimated] ∧
    (scenario_posed.addTwistEdge series_math late_twist).state.optimizer.edges =
      scenario_posed.optimizer.edges ++
        [Edge.se3 (create_se3_edge_from_twist series_math (some 2) (some 3) forward_twist
          (3 - 5))] :=
  addTwistEdge_no_time_check scenario_posed series_math late_twist posed_self rfl rfl

/-! ## The constructor establishes the standing assumptions -/

theorem robots_at_emplace_some (m : List (Nat × Robot)) (id j : Nat) (r s : Robot)
    (h : robots_at m j = some s) : robots_at (robots_emplace m id r) j = some s := by
  unfold robots_emplace
  split
  · exact h
  · clear * - h
    induction m with
    | nil => simp [robots_at] at h
    | cons p m ih =>
      obtain ⟨i, q⟩ := p
      by_cases hi : i = j
      · simp only [robots_at, if_pos hi] at h
        simp only [List.cons_append, robots_at, if_pos hi, h]
      · simp only [robots_at, if_neg hi] at h
        simp only [List.cons_append, robots_at, if_neg hi]
        exact ih h

theorem register_node_self (nodesId : List Nat) (nodesPos : List ℚ)
    (st st' : List (Nat × Robot) × SparseOptimizer) (i self_id : Nat)
    (h : ∃ s, robots_at st.1 self_id = some s ∧ s.FLAG_STATIC = false)
    (hst : register_node nodesId nodesPos st i = some st') :
    ∃ s, robots_at st'.1 self_id = some s ∧ s.FLAG_STATIC = false := by
  obtain ⟨s, hs, hm⟩ := h
  unfold register_node at hst
  split at hst
  · rename_i id x y z _ _ _ _
    have he := robots_at_emplace_some st.1 id self_id (Robot.create id true 1) s hs
    simp only at hst
    split at hst
    · cases hst
    · rename_i r hr
      cases hst
      by_cases hid : self_id = id
      · subst hid
        rw [he] at hr
        cases hr
        exact ⟨_, robots_at_assign_self _ _ _ _ he, hm⟩
      · exact ⟨s, by rw [robots_at_assign_ne _ _ _ _ hid]; exact he, hm⟩
  · cases hst

theorem register_nodes_self (nodesId : List Nat) (nodesPos : List ℚ) (is : List Nat)
    (st st' : List (Nat × Robot) × SparseOptimizer) (self_id : Nat)
    (h : ∃ s, robots_at st.1 self_id = some s ∧ s.FLAG_STATIC = false)
    (hst : register_nodes nodesId nodesPos is st = some st') :
    ∃ s, robots_at st'.1 self_id = some s ∧ s.FLAG_STATIC = false := by
  induction is generalizing st with
  | nil =>
    simp only [register_nodes, Option.some.injEq] at hst
    exact hst ▸ h
  | cons i is ih =>
    simp only [register_nodes] at hst
    split at hst
    · cases hst
    · rename_i st1 h1
      exact ih st1 (register_node_self nodesId nodesPos st st1 i self_id h h1) hst

/-- In every state the constructor builds, the self agent is registered and mobile. -/
theorem create_self_mobile (p : Params) (k : Option Nat) (L : Localization)
    (h : Localization.create p k = some L) :
    ∃ s, robots_at L.robots L.self_id = some s ∧ s.FLAG_STATIC = false := by
  unfold Localization.create at h
  split at h
  · cases h
  · rename_i self_id _
    simp only at h
    split at h
    · cases h
    · rename_i st hst
      cases h
      refine register_nodes_self p.nodesId p.nodesPos _ _ st self_id ?_ hst
      exact ⟨(Robot.createWith self_id false p.trajectory_length
        { vertices := [], edges := [] }).1, by simp [robots_emplace, robots_at], rfl⟩

end UwbLocalization
